import Mathlib

/-!
Verification development for the portfolio position / Brazilian capital-gains
tax engines (`application/position_calculator.py`, `application/tax_calculator.py`,
`domain/value_objects.py`, `domain/enums.py`, `domain/entities.py`).

Python `Decimal` values are embedded as exact rationals (`ℚ`);
`Decimal.quantize(..., ROUND_HALF_UP)` is embedded as rounding half away from
zero at the corresponding scale.  Python `Decimal` division carries 28
significant digits before the subsequent 2-decimal quantization; the embedding
performs the division exactly in `ℚ` and then quantizes, which agrees with the
source everywhere except on ties manufactured at the 26th significant digit.
Python `dict`s (insertion ordered, keys unique by construction) are embedded as
association lists, and the externally owned accumulated-loss dictionary
(`dict.get(key, 0)` semantics) as a total function from keys to `ℚ`.
-/

namespace Portfolio

/-- `ROUND_HALF_UP` of Python `decimal`: round to the nearest integer, ties
away from zero. -/
def roundHalfAwayZero (x : ℚ) : ℤ :=
  if 0 ≤ x then ⌊x + 1/2⌋ else -⌊-x + 1/2⌋

/-- `domain/value_objects.py::round_monetary` — quantize to 2 decimal places,
half away from zero. -/
def round_monetary (x : ℚ) : ℚ :=
  (roundHalfAwayZero (x * 100) : ℚ) / 100

/-- `domain/value_objects.py::round_qty` — quantize to 8 decimal places,
half away from zero. -/
def round_qty (x : ℚ) : ℚ :=
  (roundHalfAwayZero (x * 100000000) : ℚ) / 100000000

/-- `domain/enums.py::AssetClass`. -/
inductive AssetClass
  | ACAO | FII | ETF | BDR | RENDA_FIXA | CRIPTO
deriving DecidableEq

/-- `domain/enums.py::TransactionType`. -/
inductive TransactionType
  | BUY | SELL | SPLIT | INPLIT | DIVIDEND | JCP | BONUS
deriving DecidableEq

/-- `domain/enums.py::TradeType`. -/
inductive TradeType
  | SWING_TRADE | DAY_TRADE
deriving DecidableEq

/-- `domain/enums.py::Currency`. -/
inductive Currency
  | BRL | USD
deriving DecidableEq

/-- `domain/entities.py::Transaction` (the fields the engines read; `date` is
an abstract day ordinal). -/
structure Transaction where
  ticker : String
  asset_class : AssetClass
  type : TransactionType
  trade_type : TradeType
  date : ℕ
  quantity : ℚ
  price : ℚ
  currency : Currency
  fx_rate : ℚ
  institution : String
deriving DecidableEq

/-- `application/position_calculator.py::SaleResult`. -/
structure SaleResult where
  ticker : String
  date : ℕ
  trade_type : TradeType
  asset_class : AssetClass
  sell_qty : ℚ
  sell_price : ℚ
  avg_cost : ℚ
  proceeds : ℚ
  cost_of_sold : ℚ
  gain_loss : ℚ
  currency : Currency
  fx_rate : ℚ
deriving DecidableEq

/-- `SaleResult.gain_loss_brl`. -/
def gain_loss_brl (sr : SaleResult) : ℚ :=
  round_monetary (sr.gain_loss * sr.fx_rate)

/-- `SaleResult.proceeds_brl`. -/
def proceeds_brl (sr : SaleResult) : ℚ :=
  round_monetary (sr.proceeds * sr.fx_rate)

/-- `application/position_calculator.py::_MutablePosition`. -/
structure MutablePosition where
  ticker : String
  asset_class : AssetClass
  currency : Currency
  institution : String
  quantity : ℚ
  avg_price : ℚ
  total_cost : ℚ
deriving DecidableEq

/-- `application/position_calculator.py::_TickerGlobal`. -/
structure TickerGlobal where
  quantity : ℚ
  total_cost : ℚ
  avg_price : ℚ
deriving DecidableEq

/-- State of a `PositionCalculator`: `_positions` (dict keyed by
ticker@institution, insertion ordered) and `_globals` (dict keyed by ticker). -/
structure CalcState where
  positions : List MutablePosition
  globals : List (String × TickerGlobal)
deriving DecidableEq

/-- `domain/entities.py::Position` (the fields produced by `get_positions`). -/
structure Position where
  ticker : String
  asset_class : AssetClass
  quantity : ℚ
  avg_price : ℚ
  currency : Currency
  total_cost : ℚ
  institution : String
deriving DecidableEq

/-- Dict lookup by `ticker@institution` key. -/
def findRow : List MutablePosition → String → String → Option MutablePosition
  | [], _, _ => none
  | p :: rest, t, i =>
      if p.ticker = t ∧ p.institution = i then some p else findRow rest t i

/-- In-place field update of the row keyed `t@i` (a Python dict stores one row
per key; updating through the shared mutable object is a keyed map update). -/
def updatePos (l : List MutablePosition) (t i : String)
    (f : MutablePosition → MutablePosition) : List MutablePosition :=
  l.map (fun p => if p.ticker = t ∧ p.institution = i then f p else p)

/-- `_globals.get(ticker)`. -/
def lookupG : List (String × TickerGlobal) → String → Option TickerGlobal
  | [], _ => none
  | (k, g) :: rest, t => if k = t then some g else lookupG rest t

/-- Write the global entry of a ticker (append on first write, like a Python
dict). -/
def setG : List (String × TickerGlobal) → String → TickerGlobal →
    List (String × TickerGlobal)
  | [], t, g => [(t, g)]
  | (k, g0) :: rest, t, g =>
      if k = t then (t, g) :: rest else (k, g0) :: setG rest t g

/-- The global entry of a ticker, defaulting to the zero entry a fresh
`_TickerGlobal()` would hold. -/
def getGlobalD (s : CalcState) (t : String) : TickerGlobal :=
  (lookupG s.globals t).getD ⟨0, 0, 0⟩

/-- The authoritative average price of a ticker. -/
def globalAvg (s : CalcState) (t : String) : ℚ :=
  (getGlobalD s t).avg_price

/-- `PositionCalculator._sync_avg_price`: copy the global `avg_price` to every
row of the ticker and recompute each row's `total_cost` as
`quantity × avg_price` (zero if the row's quantity is not positive). -/
def syncAvgPrice (s : CalcState) (t : String) : CalcState :=
  match lookupG s.globals t with
  | none => s
  | some g =>
      { s with positions := s.positions.map (fun p =>
          if p.ticker = t then
            { p with avg_price := g.avg_price,
                     total_cost :=
                       if 0 < p.quantity then
                         round_monetary (p.quantity * g.avg_price)
                       else 0 }
          else p) }

/-- The accumulation loop of `PositionCalculator._recalc_global`: fold the
rows of the ticker, rounding at each accumulation step as the source does. -/
def recalcTotals (l : List MutablePosition) (t : String) : ℚ × ℚ :=
  l.foldl (fun acc p =>
      if p.ticker = t then
        (round_qty (acc.1 + p.quantity), round_monetary (acc.2 + p.total_cost))
      else acc)
    (0, 0)

/-- `PositionCalculator._recalc_global`: recompute the ticker-global entry from
the per-institution rows, then propagate. -/
def recalcGlobal (s : CalcState) (t : String) : CalcState :=
  let tot := recalcTotals s.positions t
  let g : TickerGlobal :=
    ⟨tot.1, tot.2, if 0 < tot.1 then round_monetary (tot.2 / tot.1) else 0⟩
  syncAvgPrice { s with globals := setG s.globals t g } t

/-- A freshly constructed `_MutablePosition` for the transaction's key. -/
def freshPos (tx : Transaction) : MutablePosition :=
  { ticker := tx.ticker, asset_class := tx.asset_class,
    currency := tx.currency, institution := tx.institution,
    quantity := 0, avg_price := 0, total_cost := 0 }

/-- The row-creation prologue of `PositionCalculator.process`: insert a fresh
zero row when the `ticker@institution` key is unseen. -/
def ensureRow (s : CalcState) (tx : Transaction) : CalcState :=
  if (findRow s.positions tx.ticker tx.institution).isSome then s
  else { s with positions := s.positions ++ [freshPos tx] }

/-- `PositionCalculator._buy`. -/
def buyOp (s : CalcState) (tx : Transaction) : CalcState :=
  let buy_cost := round_monetary (tx.quantity * tx.price)
  let positions := updatePos s.positions tx.ticker tx.institution (fun p =>
    { p with quantity := round_qty (p.quantity + tx.quantity),
             total_cost := round_monetary (p.total_cost + buy_cost) })
  let g := getGlobalD s tx.ticker
  let gq := round_qty (g.quantity + tx.quantity)
  let gc := round_monetary (g.total_cost + buy_cost)
  let ga := if 0 < gq then round_monetary (gc / gq) else 0
  syncAvgPrice
    { positions := positions, globals := setG s.globals tx.ticker ⟨gq, gc, ga⟩ }
    tx.ticker

/-- `PositionCalculator._sell`. -/
def sellOp (s : CalcState) (tx : Transaction) : CalcState × SaleResult :=
  let g := getGlobalD s tx.ticker
  let avg := g.avg_price
  let cost_of_sold := round_monetary (tx.quantity * avg)
  let proceeds := round_monetary (tx.quantity * tx.price)
  let gain_loss := round_monetary (proceeds - cost_of_sold)
  let positions := updatePos s.positions tx.ticker tx.institution (fun p =>
    let new_qty := round_qty (p.quantity - tx.quantity)
    if new_qty ≤ 0 then { p with quantity := 0, total_cost := 0 }
    else { p with quantity := new_qty,
                  total_cost := round_monetary (new_qty * avg) })
  let gq := round_qty (g.quantity - tx.quantity)
  let g2 : TickerGlobal :=
    if gq ≤ 0 then ⟨0, 0, 0⟩
    else ⟨gq, round_monetary (gq * avg), avg⟩
  let s2 := syncAvgPrice
    { positions := positions, globals := setG s.globals tx.ticker g2 }
    tx.ticker
  (s2,
   { ticker := tx.ticker, date := tx.date, trade_type := tx.trade_type,
     asset_class := tx.asset_class, sell_qty := tx.quantity,
     sell_price := tx.price, avg_cost := avg, proceeds := proceeds,
     cost_of_sold := cost_of_sold, gain_loss := gain_loss,
     currency := tx.currency, fx_rate := tx.fx_rate })

/-- `PositionCalculator._split` (the transaction's quantity field carries the
split factor).  The source's interim write to the global quantity is dead: the
immediately following full recompute overwrites every global field. -/
def splitOp (s : CalcState) (tx : Transaction) : CalcState :=
  if tx.quantity ≤ 0 then s
  else
    let positions := updatePos s.positions tx.ticker tx.institution (fun p =>
      { p with quantity := round_qty (p.quantity * tx.quantity) })
    recalcGlobal { s with positions := positions } tx.ticker

/-- `PositionCalculator._inplit`. -/
def inplitOp (s : CalcState) (tx : Transaction) : CalcState :=
  if tx.quantity ≤ 0 then s
  else
    let positions := updatePos s.positions tx.ticker tx.institution (fun p =>
      { p with quantity := round_qty (p.quantity / tx.quantity) })
    recalcGlobal { s with positions := positions } tx.ticker

/-- `PositionCalculator._bonus`. -/
def bonusOp (s : CalcState) (tx : Transaction) : CalcState :=
  let positions := updatePos s.positions tx.ticker tx.institution (fun p =>
    { p with quantity := round_qty (p.quantity + tx.quantity) })
  let g := getGlobalD s tx.ticker
  let gq := round_qty (g.quantity + tx.quantity)
  let ga := if 0 < gq then round_monetary (g.total_cost / gq) else 0
  syncAvgPrice
    { positions := positions,
      globals := setG s.globals tx.ticker ⟨gq, g.total_cost, ga⟩ }
    tx.ticker

/-- `PositionCalculator.process`. -/
def process (s : CalcState) (tx : Transaction) : CalcState × Option SaleResult :=
  let s1 := ensureRow s tx
  match tx.type with
  | TransactionType.BUY => (buyOp s1 tx, none)
  | TransactionType.SELL =>
      let r := sellOp s1 tx
      (r.1, some r.2)
  | TransactionType.SPLIT => (splitOp s1 tx, none)
  | TransactionType.INPLIT => (inplitOp s1 tx, none)
  | TransactionType.BONUS => (bonusOp s1 tx, none)
  | TransactionType.DIVIDEND => (s1, none)
  | TransactionType.JCP => (s1, none)

/-- The state component of `process`. -/
def processS (s : CalcState) (tx : Transaction) : CalcState :=
  (process s tx).1

/-- A fresh `PositionCalculator()`. -/
def initState : CalcState := ⟨[], []⟩

/-- Replay an ordered transaction list through a fresh engine. -/
def runAll (txs : List Transaction) : CalcState :=
  txs.foldl processS initState

/-- `domain/entities.py::Position.__post_init__` rounds the monetary fields. -/
def toPosition (p : MutablePosition) : Position :=
  { ticker := p.ticker, asset_class := p.asset_class, quantity := p.quantity,
    avg_price := round_monetary p.avg_price, currency := p.currency,
    total_cost := round_monetary p.total_cost, institution := p.institution }

/-- `PositionCalculator.get_positions`. -/
def get_positions (s : CalcState) : List Position :=
  s.positions.map toPosition

/-- `PositionCalculator.get_open_positions` (`Position.is_open` is
`quantity > 0`). -/
def get_open_positions (s : CalcState) : List Position :=
  (get_positions s).filter (fun p => decide (0 < p.quantity))

/-! ## Tax engine (`application/tax_calculator.py`) -/

/-- `domain/entities.py::TaxResult`. -/
structure TaxResult where
  month_ref : String
  asset_class : AssetClass
  trade_type : TradeType
  gross_gain : ℚ
  accumulated_loss_before : ℚ
  taxable_gain : ℚ
  tax_rate : ℚ
  tax_due : ℚ
  irrf_withheld : ℚ
  darf_to_pay : ℚ
  accumulated_loss_after : ℚ
deriving DecidableEq

/-- `TaxResult.__post_init__` rounds every monetary field (all but
`tax_rate`). -/
def mkTaxResult (m : String) (ac : AssetClass) (tt : TradeType)
    (gross accBefore taxable rate due irrf darf accAfter : ℚ) : TaxResult :=
  { month_ref := m, asset_class := ac, trade_type := tt,
    gross_gain := round_monetary gross,
    accumulated_loss_before := round_monetary accBefore,
    taxable_gain := round_monetary taxable,
    tax_rate := rate,
    tax_due := round_monetary due,
    irrf_withheld := round_monetary irrf,
    darf_to_pay := round_monetary darf,
    accumulated_loss_after := round_monetary accAfter }

def SWING_TRADE_RATE : ℚ := 15 / 100

def DAY_TRADE_RATE : ℚ := 20 / 100

def IRRF_SWING_RATE : ℚ := 5 / 100000

def IRRF_DAY_RATE : ℚ := 1 / 100

def MONTHLY_EXEMPTION_LIMIT : ℚ := 20000

/-- `TaxCalculatorBR._rate`. -/
def rate_of (tt : TradeType) : ℚ :=
  if tt = TradeType.DAY_TRADE then DAY_TRADE_RATE else SWING_TRADE_RATE

/-- `TaxCalculatorBR._compute_irrf`. -/
def compute_irrf (tt : TradeType) (total_proceeds_brl total_gain_brl : ℚ) : ℚ :=
  if tt = TradeType.DAY_TRADE then
    if 0 < total_gain_brl then round_monetary (total_gain_brl * IRRF_DAY_RATE)
    else 0
  else round_monetary (total_proceeds_brl * IRRF_SWING_RATE)

/-- Grouping key `(asset_class, trade_type)`. -/
abbrev TaxKey := AssetClass × TradeType

/-- The caller-owned `accumulated_losses` dictionary, embedded as a total map
(`dict.get(key, ZERO)` semantics). -/
abbrev Ledger := TaxKey → ℚ

def updateLedger (led : Ledger) (k : TaxKey) (v : ℚ) : Ledger :=
  fun k2 => if k2 = k then v else led k2

def saleKey (sr : SaleResult) : TaxKey := (sr.asset_class, sr.trade_type)

/-- `sum(sr.gain_loss_brl for sr in sales)`. -/
def totalGainBRL (sales : List SaleResult) : ℚ :=
  (sales.map gain_loss_brl).sum

/-- `sum(sr.proceeds_brl for sr in sales)`. -/
def totalProceedsBRL (sales : List SaleResult) : ℚ :=
  (sales.map proceeds_brl).sum

/-- The loop body of `calculate_monthly_tax` for one group, after the monthly
exemption guard did not fire: loss accumulation, loss offset, or full
taxation.  Returns the `TaxResult` and the group's ledger entry afterwards. -/
def groupTaxCore (m : String) (k : TaxKey) (sales : List SaleResult)
    (acc_loss : ℚ) : TaxResult × ℚ :=
  let total_gain := totalGainBRL sales
  let total_proceeds := totalProceedsBRL sales
  if total_gain < 0 then
    let new_acc := round_monetary (acc_loss + |total_gain|)
    (mkTaxResult m k.1 k.2 total_gain acc_loss 0 (rate_of k.2) 0 0 0 new_acc,
     new_acc)
  else
    let taxable := round_monetary (total_gain - acc_loss)
    if taxable < 0 then
      let remaining := round_monetary |taxable|
      (mkTaxResult m k.1 k.2 total_gain acc_loss 0 (rate_of k.2) 0 0 0 remaining,
       remaining)
    else
      let rate := rate_of k.2
      let tax_due := round_monetary (taxable * rate)
      let irrf := compute_irrf k.2 total_proceeds total_gain
      let darf := round_monetary (max (tax_due - irrf) 0)
      (mkTaxResult m k.1 k.2 total_gain acc_loss taxable rate tax_due irrf darf 0,
       0)

/-- The loop body of `calculate_monthly_tax` for one group: the monthly
exemption guard (swing trade, stocks, proceeds within the limit) in front of
`groupTaxCore`.  The exemption branch leaves the ledger entry untouched. -/
def groupTax (m : String) (k : TaxKey) (sales : List SaleResult)
    (acc_loss : ℚ) : TaxResult × ℚ :=
  if k.2 = TradeType.SWING_TRADE ∧ k.1 = AssetClass.ACAO ∧
      totalProceedsBRL sales ≤ MONTHLY_EXEMPTION_LIMIT then
    (mkTaxResult m k.1 k.2 (totalGainBRL sales) acc_loss 0 SWING_TRADE_RATE
       0 0 0 acc_loss,
     acc_loss)
  else groupTaxCore m k sales acc_loss

/-- First-occurrence-order key insertion (`defaultdict` preserves the order in
which keys first appear). -/
def insertKey (ks : List TaxKey) (k : TaxKey) : List TaxKey :=
  if k ∈ ks then ks else ks ++ [k]

/-- The distinct group keys of a sale batch, in first-occurrence order. -/
def groupKeys (sales : List SaleResult) : List TaxKey :=
  sales.foldl (fun ks sr => insertKey ks (saleKey sr)) []

/-- The `for (asset_class, trade_type), sales in groups.items()` loop of
`calculate_monthly_tax`. -/
def taxFold (m : String) (sales : List SaleResult) :
    List TaxKey → List TaxResult × Ledger → List TaxResult × Ledger
  | [], acc => acc
  | k :: ks, acc =>
      let grp := sales.filter (fun sr => decide (saleKey sr = k))
      let r := groupTax m k grp (acc.2 k)
      taxFold m sales ks (acc.1 ++ [r.1], updateLedger acc.2 k r.2)

/-- `TaxCalculatorBR.calculate_monthly_tax`: group the sales by
`(asset_class, trade_type)`, then handle each group in turn, threading the
accumulated-loss ledger. -/
def calculate_monthly_tax (sales : List SaleResult) (led : Ledger)
    (m : String) : List TaxResult × Ledger :=
  taxFold m sales (groupKeys sales) ([], led)

/-! ## Fixed-point predicates -/

/-- A value on the 2-decimal monetary grid. -/
def Is2Dec (x : ℚ) : Prop := ∃ n : ℤ, x = n / 100

/-- A value on the 8-decimal quantity grid. -/
def Is8Dec (x : ℚ) : Prop := ∃ n : ℤ, x = n / 100000000

/-! ## Concrete sample data -/

/-- Scenario A, first purchase: BUY 100 @ 30.00. -/
def txA1 : Transaction :=
  { ticker := "PETR4", asset_class := AssetClass.ACAO,
    type := TransactionType.BUY, trade_type := TradeType.SWING_TRADE,
    date := 1, quantity := 100, price := 30, currency := Currency.BRL,
    fx_rate := 1, institution := "XP" }

/-- Scenario A, second purchase: BUY 50 @ 36.00. -/
def txA2 : Transaction := { txA1 with quantity := 50, price := 36, date := 2 }

/-- Scenario A, sale: SELL 40 @ 35.00. -/
def txA3 : Transaction :=
  { txA1 with type := TransactionType.SELL, quantity := 40, price := 35, date := 3 }

/-- Full-liquidation demo: BUY 100 @ 30.00. -/
def dxBuy : Transaction :=
  { txA1 with ticker := "D", institution := "I" }

/-- Full-liquidation demo: SELL the whole 100 @ 25.00. -/
def dxSellAll : Transaction :=
  { dxBuy with type := TransactionType.SELL, quantity := 100, price := 25, date := 2 }

/-- Split demo: BUY 3 @ 33.33. -/
def cxBuy : Transaction :=
  { txA1 with ticker := "S", institution := "I", quantity := 3, price := 3333/100 }

/-- Split demo: SPLIT with factor 7. -/
def cxSplit : Transaction :=
  { cxBuy with type := TransactionType.SPLIT, quantity := 7, price := 0, date := 2 }

/-- Bonus demo: BUY 1 @ 0.01. -/
def bxBuy : Transaction :=
  { txA1 with ticker := "T", institution := "I", quantity := 1, price := 1/100 }

/-- Bonus demo: SELL 0.5 @ 0.01. -/
def bxSellHalf : Transaction :=
  { bxBuy with type := TransactionType.SELL, quantity := 1/2, date := 2 }

/-- Bonus demo: BONUS of one quantity quantum (0.00000001 share). -/
def bxBonus : Transaction :=
  { bxBuy with
      type := TransactionType.BONUS
      quantity := 1/100000000
      price := 0
      date := 3 }

/-- Invariant demo: BUY 100 @ 30.00 at ticker W. -/
def wxBuy : Transaction :=
  { txA1 with ticker := "W", institution := "I" }

/-- The row produced by `wxBuy` on a fresh engine. -/
def pW : MutablePosition :=
  { ticker := "W", asset_class := AssetClass.ACAO, currency := Currency.BRL,
    institution := "I", quantity := 100, avg_price := 30, total_cost := 3000 }

/-- A cash dividend on a never-seen (ticker, institution) pair. -/
def txDiv : Transaction :=
  { txA1 with
      ticker := "V"
      institution := "N"
      type := TransactionType.DIVIDEND
      quantity := 0
      price := 5 }

/-- A BRL sale event with the given classification, proceeds and gain. -/
def mkSale (ac : AssetClass) (tt : TradeType) (p g : ℚ) : SaleResult :=
  { ticker := "X", date := 1, trade_type := tt, asset_class := ac,
    sell_qty := 1, sell_price := p, avg_cost := p - g, proceeds := p,
    cost_of_sold := p - g, gain_loss := g, currency := Currency.BRL,
    fx_rate := 1 }

/-- An exempt swing-trade stock sale: proceeds 15000.00, gain 100.00. -/
def saleExempt : SaleResult := mkSale AssetClass.ACAO TradeType.SWING_TRADE 15000 100

/-- A non-exempt FII sale at a loss: proceeds 1000.00, gain −50.00. -/
def saleFIIloss : SaleResult := mkSale AssetClass.FII TradeType.SWING_TRADE 1000 (-50)

/-- A swing-trade stock sale above the exemption limit: proceeds 25000.00,
gain 1000.00. -/
def saleBigGain : SaleResult := mkSale AssetClass.ACAO TradeType.SWING_TRADE 25000 1000

/-- A swing-trade stock sale below the exemption limit: proceeds 15000.00,
gain 1000.00. -/
def saleSmallGain : SaleResult := mkSale AssetClass.ACAO TradeType.SWING_TRADE 15000 1000

/-- An exempt swing-trade stock sale at a loss: proceeds 5000.00, gain −200.00. -/
def saleExemptLoss : SaleResult := mkSale AssetClass.ACAO TradeType.SWING_TRADE 5000 (-200)

/-- The empty accumulated-loss ledger. -/
def zeroLedger : Ledger := fun _ => 0

/-- A ledger carrying a 100.00 loss for swing-trade FII sales. -/
def ledFII : Ledger :=
  updateLedger zeroLedger (AssetClass.FII, TradeType.SWING_TRADE) 100

/-- A ledger carrying a 300.00 loss for swing-trade stock sales. -/
def led300 : Ledger :=
  updateLedger zeroLedger (AssetClass.ACAO, TradeType.SWING_TRADE) 300

/-- A ledger carrying a 50.00 loss for swing-trade stock sales. -/
def led50 : Ledger :=
  updateLedger zeroLedger (AssetClass.ACAO, TradeType.SWING_TRADE) 50

/-- The swing-trade stock grouping key. -/
def stockSwing : TaxKey := (AssetClass.ACAO, TradeType.SWING_TRADE)

/-- The sales of one `(asset_class, trade_type)` group. -/
def groupOf (sales : List SaleResult) (k : TaxKey) : List SaleResult :=
  sales.filter (fun sr => decide (saleKey sr = k))

/-- The single-institution row holding 3 shares at average 33.33. -/
def pS : MutablePosition :=
  { ticker := "S", asset_class := AssetClass.ACAO, currency := Currency.BRL,
    institution := "I", quantity := 3, avg_price := 3333/100, total_cost := 9999/100 }

/-- The row holding half a share at average 0.01. -/
def pT : MutablePosition :=
  { ticker := "T", asset_class := AssetClass.ACAO, currency := Currency.BRL,
    institution := "I", quantity := 1/2, avg_price := 1/100, total_cost := 1/100 }

/-- An engine state holding `pT` with a matching global entry. -/
def sT : CalcState := ⟨[pT], [("T", ⟨1/2, 1/100, 1/100⟩)]⟩

/-! ## Rounding lemmas -/

theorem roundHalfAwayZero_intCast (n : ℤ) : roundHalfAwayZero (n : ℚ) = n := by
  unfold roundHalfAwayZero
  by_cases h : (0 : ℚ) ≤ (n : ℚ)
  · rw [if_pos h]
    rw [show ((n : ℚ) + 1/2) = ((n : ℤ) : ℚ) + (1/2 : ℚ) by norm_num]
    rw [Int.floor_int_add]
    norm_num
  · rw [if_neg h]
    rw [show (-(n : ℚ) + 1/2) = (((-n) : ℤ) : ℚ) + (1/2 : ℚ) by push_cast; ring]
    rw [Int.floor_int_add]
    norm_num

theorem round_monetary_eq_self {x : ℚ} (h : Is2Dec x) : round_monetary x = x := by
  obtain ⟨n, rfl⟩ := h
  unfold round_monetary
  rw [show ((n : ℚ) / 100 * 100) = (n : ℚ) by field_simp]
  rw [roundHalfAwayZero_intCast]

theorem round_qty_eq_self {x : ℚ} (h : Is8Dec x) : round_qty x = x := by
  obtain ⟨n, rfl⟩ := h
  unfold round_qty
  rw [show ((n : ℚ) / 100000000 * 100000000) = (n : ℚ) by field_simp]
  rw [roundHalfAwayZero_intCast]

theorem is2dec_round_monetary (x : ℚ) : Is2Dec (round_monetary x) :=
  ⟨roundHalfAwayZero (x * 100), rfl⟩

theorem is8dec_round_qty (x : ℚ) : Is8Dec (round_qty x) :=
  ⟨roundHalfAwayZero (x * 100000000), rfl⟩

theorem is2dec_zero : Is2Dec 0 := ⟨0, by norm_num⟩

theorem is2dec_add {x y : ℚ} (hx : Is2Dec x) (hy : Is2Dec y) : Is2Dec (x + y) := by
  obtain ⟨n, rfl⟩ := hx
  obtain ⟨m, rfl⟩ := hy
  exact ⟨n + m, by push_cast; ring⟩

theorem is2dec_neg {x : ℚ} (hx : Is2Dec x) : Is2Dec (-x) := by
  obtain ⟨n, rfl⟩ := hx
  exact ⟨-n, by push_cast; ring⟩

theorem is2dec_sub {x y : ℚ} (hx : Is2Dec x) (hy : Is2Dec y) : Is2Dec (x - y) := by
  rw [sub_eq_add_neg]
  exact is2dec_add hx (is2dec_neg hy)

theorem is2dec_abs {x : ℚ} (hx : Is2Dec x) : Is2Dec |x| := by
  rcases abs_choice x with h | h
  · rwa [h]
  · rw [h]; exact is2dec_neg hx

theorem is8dec_zero : Is8Dec 0 := ⟨0, by norm_num⟩

theorem is8dec_add {x y : ℚ} (hx : Is8Dec x) (hy : Is8Dec y) : Is8Dec (x + y) := by
  obtain ⟨n, rfl⟩ := hx
  obtain ⟨m, rfl⟩ := hy
  exact ⟨n + m, by push_cast; ring⟩

theorem round_monetary_zero : round_monetary 0 = 0 :=
  round_monetary_eq_self is2dec_zero

theorem is2dec_sum (l : List ℚ) (h : ∀ x ∈ l, Is2Dec x) : Is2Dec l.sum := by
  induction l with
  | nil => simpa using is2dec_zero
  | cons a t ih =>
      rw [List.sum_cons]
      exact is2dec_add (h a (List.mem_cons_self a t))
        (ih (fun x hx => h x (List.mem_cons_of_mem a hx)))

theorem is2dec_totalGain (sales : List SaleResult) : Is2Dec (totalGainBRL sales) := by
  unfold totalGainBRL
  refine is2dec_sum _ ?_
  intro x hx
  obtain ⟨sr, _, rfl⟩ := List.mem_map.mp hx
  exact is2dec_round_monetary _

/-! ## Structural lemmas about the engine state -/

theorem lookupG_setG_self (gs : List (String × TickerGlobal)) (t : String)
    (g : TickerGlobal) : lookupG (setG gs t g) t = some g := by
  induction gs with
  | nil => simp [setG, lookupG]
  | cons hd rest ih =>
      obtain ⟨k, g0⟩ := hd
      by_cases h : k = t
      · simp [setG, h, lookupG]
      · simp [setG, h, lookupG, ih]

theorem lookupG_setG_ne (gs : List (String × TickerGlobal)) (t t2 : String)
    (g : TickerGlobal) (h : t2 ≠ t) :
    lookupG (setG gs t g) t2 = lookupG gs t2 := by
  induction gs with
  | nil => simp [setG, lookupG, Ne.symm h]
  | cons hd rest ih =>
      obtain ⟨k, g0⟩ := hd
      by_cases hk : k = t
      · subst hk
        simp [setG, lookupG, Ne.symm h]
      · simp [setG, hk, lookupG, ih]

theorem sync_globals (s : CalcState) (t : String) :
    (syncAvgPrice s t).globals = s.globals := by
  unfold syncAvgPrice
  cases lookupG s.globals t <;> rfl

/-- The cached-average invariant: every open row carries the ticker-global
average price. -/
def Inv (s : CalcState) : Prop :=
  ∀ p ∈ s.positions, 0 < p.quantity → p.avg_price = globalAvg s p.ticker

theorem inv_initState : Inv initState := by
  intro p hp
  simp [initState] at hp

theorem mem_updatePos_ne (l : List MutablePosition) (t i : String)
    (f : MutablePosition → MutablePosition)
    (hf : ∀ p, (f p).ticker = p.ticker) :
    ∀ p ∈ updatePos l t i f, p.ticker ≠ t → p ∈ l := by
  intro p hp hne
  obtain ⟨q, hq, hfq⟩ := List.mem_map.mp hp
  by_cases hc : q.ticker = t ∧ q.institution = i
  · rw [if_pos hc] at hfq
    exact absurd (hfq ▸ (hf q).trans hc.1) hne
  · rw [if_neg hc] at hfq
    exact hfq ▸ hq

theorem inv_sync_setG (s : CalcState) (t : String) (l : List MutablePosition)
    (g : TickerGlobal) (hInv : Inv s)
    (hl : ∀ p ∈ l, p.ticker ≠ t → p ∈ s.positions) :
    Inv (syncAvgPrice ⟨l, setG s.globals t g⟩ t) := by
  intro p hp hq
  have hlook : lookupG (setG s.globals t g) t = some g := lookupG_setG_self _ _ _
  unfold syncAvgPrice at hp ⊢
  rw [hlook] at hp ⊢
  simp only [List.mem_map] at hp
  obtain ⟨q0, hq0, rfl⟩ := hp
  by_cases hc : q0.ticker = t
  · rw [if_pos hc]
    simp only [globalAvg, getGlobalD]
    rw [hc, hlook]
    rfl
  · rw [if_neg hc]
    rw [if_neg hc] at hq
    have hmem : q0 ∈ s.positions := hl q0 hq0 hc
    have := hInv q0 hmem hq
    simp only [globalAvg, getGlobalD]
    rw [lookupG_setG_ne _ _ _ _ hc]
    exact this

theorem inv_ensureRow (s : CalcState) (tx : Transaction) (h : Inv s) :
    Inv (ensureRow s tx) := by
  unfold ensureRow
  by_cases hc : (findRow s.positions tx.ticker tx.institution).isSome
  · rw [if_pos hc]; exact h
  · rw [if_neg hc]
    intro p hp hq
    rcases List.mem_append.mp hp with hmem | hmem
    · exact h p hmem hq
    · simp only [List.mem_singleton] at hmem
      subst hmem
      simp [freshPos] at hq

theorem inv_buyOp (s : CalcState) (tx : Transaction) (h : Inv s) :
    Inv (buyOp s tx) := by
  unfold buyOp
  exact inv_sync_setG s tx.ticker _ _ h
    (mem_updatePos_ne _ _ _ _ (fun p => rfl))

theorem inv_sellOp (s : CalcState) (tx : Transaction) (h : Inv s) :
    Inv (sellOp s tx).1 := by
  unfold sellOp
  exact inv_sync_setG s tx.ticker _ _ h
    (mem_updatePos_ne _ _ _ _ (fun p => by
      by_cases hc : round_qty (p.quantity - tx.quantity) ≤ 0 <;> simp [hc]))

theorem inv_bonusOp (s : CalcState) (tx : Transaction) (h : Inv s) :
    Inv (bonusOp s tx) := by
  unfold bonusOp
  exact inv_sync_setG s tx.ticker _ _ h
    (mem_updatePos_ne _ _ _ _ (fun p => rfl))

theorem inv_recalcGlobal (s : CalcState) (t : String)
    (l : List MutablePosition) (h : Inv s)
    (hl : ∀ p ∈ l, p.ticker ≠ t → p ∈ s.positions) :
    Inv (recalcGlobal ⟨l, s.globals⟩ t) := by
  unfold recalcGlobal
  exact inv_sync_setG s t l _ h hl

theorem inv_splitOp (s : CalcState) (tx : Transaction) (h : Inv s) :
    Inv (splitOp s tx) := by
  unfold splitOp
  by_cases hc : tx.quantity ≤ 0
  · rw [if_pos hc]; exact h
  · rw [if_neg hc]
    exact inv_recalcGlobal s tx.ticker _ h
      (mem_updatePos_ne _ _ _ _ (fun p => rfl))

theorem inv_inplitOp (s : CalcState) (tx : Transaction) (h : Inv s) :
    Inv (inplitOp s tx) := by
  unfold inplitOp
  by_cases hc : tx.quantity ≤ 0
  · rw [if_pos hc]; exact h
  · rw [if_neg hc]
    exact inv_recalcGlobal s tx.ticker _ h
      (mem_updatePos_ne _ _ _ _ (fun p => rfl))

theorem inv_processS (s : CalcState) (tx : Transaction) (h : Inv s) :
    Inv (processS s tx) := by
  have h1 : Inv (ensureRow s tx) := inv_ensureRow s tx h
  unfold processS process
  cases tx.type <;> simp only
  case BUY => exact inv_buyOp _ tx h1
  case SELL => exact inv_sellOp _ tx h1
  case SPLIT => exact inv_splitOp _ tx h1
  case INPLIT => exact inv_inplitOp _ tx h1
  case BONUS => exact inv_bonusOp _ tx h1
  case DIVIDEND => exact h1
  case JCP => exact h1

theorem inv_foldl (l : List Transaction) :
    ∀ s : CalcState, Inv s → Inv (l.foldl processS s) := by
  induction l with
  | nil => intro s h; simpa using h
  | cons tx rest ih =>
      intro s h
      simpa using ih (processS s tx) (inv_processS s tx h)

theorem inv_runAll (txs : List Transaction) : Inv (runAll txs) :=
  inv_foldl txs initState inv_initState

/-! ## Structural lemmas about the tax loop -/

theorem taxFold_ledger_not_mem (m : String) (sales : List SaleResult) :
    ∀ (ks : List TaxKey) (acc : List TaxResult × Ledger) (k : TaxKey),
      k ∉ ks → (taxFold m sales ks acc).2 k = acc.2 k := by
  intro ks
  induction ks with
  | nil => intro acc k _; rfl
  | cons k0 rest ih =>
      intro acc k hk
      have hne : k ≠ k0 := fun h => hk (h ▸ List.mem_cons_self _ _)
      show (taxFold m sales rest _).2 k = _
      rw [ih _ _ (fun h => hk (List.mem_cons_of_mem _ h))]
      simp [updateLedger, hne]

theorem taxFold_ledger_mem (m : String) (sales : List SaleResult) :
    ∀ (ks : List TaxKey) (acc : List TaxResult × Ledger) (k : TaxKey),
      k ∈ ks → ks.Nodup →
      (taxFold m sales ks acc).2 k =
        (groupTax m k (sales.filter (fun sr => decide (saleKey sr = k)))
          (acc.2 k)).2 := by
  intro ks
  induction ks with
  | nil => intro acc k hk; exact absurd hk (List.not_mem_nil k)
  | cons k0 rest ih =>
      intro acc k hk hnd
      have hnd0 : k0 ∉ rest := (List.nodup_cons.mp hnd).1
      have hndr : rest.Nodup := (List.nodup_cons.mp hnd).2
      rcases List.mem_cons.mp hk with hk0 | hkr
      · subst hk0
        show (taxFold m sales rest _).2 k = _
        rw [taxFold_ledger_not_mem m sales rest _ k hnd0]
        simp [updateLedger]
      · have hne : k ≠ k0 := fun h => hnd0 (h ▸ hkr)
        show (taxFold m sales rest _).2 k = _
        rw [ih _ k hkr hndr]
        simp [updateLedger, hne]

theorem taxFold_mem_acc (m : String) (sales : List SaleResult) :
    ∀ (ks : List TaxKey) (acc : List TaxResult × Ledger) (r : TaxResult),
      r ∈ acc.1 → r ∈ (taxFold m sales ks acc).1 := by
  intro ks
  induction ks with
  | nil => intro acc r hr; exact hr
  | cons k0 rest ih =>
      intro acc r hr
      exact ih _ r (List.mem_append_left _ hr)

theorem taxFold_result_mem (m : String) (sales : List SaleResult) :
    ∀ (ks : List TaxKey) (acc : List TaxResult × Ledger) (k : TaxKey),
      k ∈ ks → ks.Nodup →
      (groupTax m k (sales.filter (fun sr => decide (saleKey sr = k)))
        (acc.2 k)).1 ∈ (taxFold m sales ks acc).1 := by
  intro ks
  induction ks with
  | nil => intro acc k hk; exact absurd hk (List.not_mem_nil k)
  | cons k0 rest ih =>
      intro acc k hk hnd
      have hnd0 : k0 ∉ rest := (List.nodup_cons.mp hnd).1
      have hndr : rest.Nodup := (List.nodup_cons.mp hnd).2
      rcases List.mem_cons.mp hk with hk0 | hkr
      · subst hk0
        refine taxFold_mem_acc m sales rest _ _ ?_
        exact List.mem_append_right _ (List.mem_singleton.mpr rfl)
      · have hne : k ≠ k0 := fun h => hnd0 (h ▸ hkr)
        have hacc : (updateLedger acc.2 k0
            (groupTax m k0 (sales.filter (fun sr => decide (saleKey sr = k0)))
              (acc.2 k0)).2) k = acc.2 k := by
          simp [updateLedger, hne]
        have := ih (acc.1 ++ [(groupTax m k0
            (sales.filter (fun sr => decide (saleKey sr = k0))) (acc.2 k0)).1],
            updateLedger acc.2 k0
              (groupTax m k0 (sales.filter (fun sr => decide (saleKey sr = k0)))
                (acc.2 k0)).2) k hkr hndr
        dsimp only at this
        rw [hacc] at this
        exact this

theorem nodup_insertKey (ks : List TaxKey) (k : TaxKey) (h : ks.Nodup) :
    (insertKey ks k).Nodup := by
  unfold insertKey
  by_cases hc : k ∈ ks
  · rwa [if_pos hc]
  · rw [if_neg hc]
    simp [List.nodup_append, h, hc]

theorem mem_insertKey_self (ks : List TaxKey) (k : TaxKey) : k ∈ insertKey ks k := by
  unfold insertKey
  by_cases hc : k ∈ ks
  · rwa [if_pos hc]
  · rw [if_neg hc]
    simp

theorem mem_insertKey_of_mem (ks : List TaxKey) (k k2 : TaxKey) (h : k2 ∈ ks) :
    k2 ∈ insertKey ks k := by
  unfold insertKey
  by_cases hc : k ∈ ks
  · rwa [if_pos hc]
  · rw [if_neg hc]
    exact List.mem_append_left _ h

theorem nodup_keyFold (l : List SaleResult) :
    ∀ ks : List TaxKey, ks.Nodup →
      (l.foldl (fun ks sr => insertKey ks (saleKey sr)) ks).Nodup := by
  induction l with
  | nil => intro ks h; exact h
  | cons a t ih =>
      intro ks h
      exact ih _ (nodup_insertKey ks (saleKey a) h)

theorem nodup_groupKeys (sales : List SaleResult) : (groupKeys sales).Nodup :=
  nodup_keyFold sales [] List.nodup_nil

theorem mem_keyFold_of_mem (l : List SaleResult) :
    ∀ (ks : List TaxKey) (k : TaxKey), k ∈ ks →
      k ∈ l.foldl (fun ks sr => insertKey ks (saleKey sr)) ks := by
  induction l with
  | nil => intro ks k h; exact h
  | cons a t ih =>
      intro ks k h
      exact ih _ k (mem_insertKey_of_mem ks (saleKey a) k h)

theorem saleKey_mem_keyFold (l : List SaleResult) :
    ∀ (ks : List TaxKey) (sr : SaleResult), sr ∈ l →
      saleKey sr ∈ l.foldl (fun ks sr => insertKey ks (saleKey sr)) ks := by
  induction l with
  | nil => intro ks sr h; exact absurd h (List.not_mem_nil sr)
  | cons a t ih =>
      intro ks sr h
      rcases List.mem_cons.mp h with h0 | hmem
      · subst h0
        exact mem_keyFold_of_mem t _ _ (mem_insertKey_self ks (saleKey sr))
      · exact ih _ sr hmem

theorem saleKey_mem_groupKeys (sales : List SaleResult) (sr : SaleResult)
    (h : sr ∈ sales) : saleKey sr ∈ groupKeys sales :=
  saleKey_mem_keyFold sales [] sr h

/-- The final ledger entry of a group present in the input is the entry the
group's own computation yields from the entry the caller passed in. -/
theorem calc_tax_ledger (sales : List SaleResult) (led : Ledger) (m : String)
    (k : TaxKey) (h : k ∈ groupKeys sales) :
    (calculate_monthly_tax sales led m).2 k =
      (groupTax m k (sales.filter (fun sr => decide (saleKey sr = k)))
        (led k)).2 :=
  taxFold_ledger_mem m sales (groupKeys sales) ([], led) k h
    (nodup_groupKeys sales)

/-- A group present in the input contributes exactly the tax result its own
computation yields from the caller's ledger entry. -/
theorem calc_tax_result (sales : List SaleResult) (led : Ledger) (m : String)
    (k : TaxKey) (h : k ∈ groupKeys sales) :
    (groupTax m k (sales.filter (fun sr => decide (saleKey sr = k)))
      (led k)).1 ∈ (calculate_monthly_tax sales led m).1 :=
  taxFold_result_mem m sales (groupKeys sales) ([], led) k h
    (nodup_groupKeys sales)

/-! ## Single-step evaluations of the concrete runs -/

set_option maxHeartbeats 2000000 in
theorem stepA1 : processS initState txA1 =
    ⟨[{ ticker := "PETR4", asset_class := AssetClass.ACAO, currency := Currency.BRL,
        institution := "XP", quantity := 100, avg_price := 30, total_cost := 3000 }],
      [("PETR4", ⟨100, 3000, 30⟩)]⟩ := by
  norm_num [processS, process, ensureRow, findRow, freshPos, buyOp,
    getGlobalD, lookupG, setG, syncAvgPrice, updatePos, initState,
    round_monetary, round_qty, roundHalfAwayZero, Rat.floor_def, txA1]

set_option maxHeartbeats 2000000 in
theorem stepA2 : processS
    ⟨[{ ticker := "PETR4", asset_class := AssetClass.ACAO, currency := Currency.BRL,
        institution := "XP", quantity := 100, avg_price := 30, total_cost := 3000 }],
      [("PETR4", ⟨100, 3000, 30⟩)]⟩ txA2 =
    ⟨[{ ticker := "PETR4", asset_class := AssetClass.ACAO, currency := Currency.BRL,
        institution := "XP", quantity := 150, avg_price := 32, total_cost := 4800 }],
      [("PETR4", ⟨150, 4800, 32⟩)]⟩ := by
  norm_num [processS, process, ensureRow, findRow, freshPos, buyOp,
    getGlobalD, lookupG, setG, syncAvgPrice, updatePos,
    round_monetary, round_qty, roundHalfAwayZero, Rat.floor_def, txA2, txA1]

set_option maxHeartbeats 2000000 in
theorem stepA3 : process
    ⟨[{ ticker := "PETR4", asset_class := AssetClass.ACAO, currency := Currency.BRL,
        institution := "XP", quantity := 150, avg_price := 32, total_cost := 4800 }],
      [("PETR4", ⟨150, 4800, 32⟩)]⟩ txA3 =
    (⟨[{ ticker := "PETR4", asset_class := AssetClass.ACAO, currency := Currency.BRL,
         institution := "XP", quantity := 110, avg_price := 32, total_cost := 3520 }],
       [("PETR4", ⟨110, 3520, 32⟩)]⟩,
     some { ticker := "PETR4", date := 3, trade_type := TradeType.SWING_TRADE,
            asset_class := AssetClass.ACAO, sell_qty := 40, sell_price := 35,
            avg_cost := 32, proceeds := 1400, cost_of_sold := 1280,
            gain_loss := 120, currency := Currency.BRL, fx_rate := 1 }) := by
  norm_num [process, ensureRow, findRow, freshPos, sellOp,
    getGlobalD, lookupG, setG, syncAvgPrice, updatePos,
    round_monetary, round_qty, roundHalfAwayZero, Rat.floor_def, txA3, txA1]

set_option maxHeartbeats 2000000 in
theorem stepD1 : processS initState dxBuy =
    ⟨[{ ticker := "D", asset_class := AssetClass.ACAO, currency := Currency.BRL,
        institution := "I", quantity := 100, avg_price := 30, total_cost := 3000 }],
      [("D", ⟨100, 3000, 30⟩)]⟩ := by
  norm_num [processS, process, ensureRow, findRow, freshPos, buyOp,
    getGlobalD, lookupG, setG, syncAvgPrice, updatePos, initState,
    round_monetary, round_qty, roundHalfAwayZero, Rat.floor_def, dxBuy, txA1]

set_option maxHeartbeats 2000000 in
theorem stepD2 : processS
    ⟨[{ ticker := "D", asset_class := AssetClass.ACAO, currency := Currency.BRL,
        institution := "I", quantity := 100, avg_price := 30, total_cost := 3000 }],
      [("D", ⟨100, 3000, 30⟩)]⟩ dxSellAll =
    ⟨[{ ticker := "D", asset_class := AssetClass.ACAO, currency := Currency.BRL,
        institution := "I", quantity := 0, avg_price := 0, total_cost := 0 }],
      [("D", ⟨0, 0, 0⟩)]⟩ := by
  norm_num [processS, process, ensureRow, findRow, freshPos, sellOp,
    getGlobalD, lookupG, setG, syncAvgPrice, updatePos,
    round_monetary, round_qty, roundHalfAwayZero, Rat.floor_def, dxSellAll, dxBuy, txA1]

set_option maxHeartbeats 2000000 in
theorem stepS1 : processS initState cxBuy =
    ⟨[{ ticker := "S", asset_class := AssetClass.ACAO, currency := Currency.BRL,
        institution := "I", quantity := 3, avg_price := 3333/100,
        total_cost := 9999/100 }],
      [("S", ⟨3, 9999/100, 3333/100⟩)]⟩ := by
  norm_num [processS, process, ensureRow, findRow, freshPos, buyOp,
    getGlobalD, lookupG, setG, syncAvgPrice, updatePos, initState,
    round_monetary, round_qty, roundHalfAwayZero, Rat.floor_def, cxBuy, txA1]

set_option maxHeartbeats 2000000 in
theorem stepS2 : processS
    ⟨[{ ticker := "S", asset_class := AssetClass.ACAO, currency := Currency.BRL,
        institution := "I", quantity := 3, avg_price := 3333/100,
        total_cost := 9999/100 }],
      [("S", ⟨3, 9999/100, 3333/100⟩)]⟩ cxSplit =
    ⟨[{ ticker := "S", asset_class := AssetClass.ACAO, currency := Currency.BRL,
        institution := "I", quantity := 21, avg_price := 119/25,
        total_cost := 2499/25 }],
      [("S", ⟨21, 9999/100, 119/25⟩)]⟩ := by
  norm_num [processS, process, ensureRow, findRow, freshPos, splitOp,
    recalcGlobal, recalcTotals, getGlobalD, lookupG, setG, syncAvgPrice, updatePos,
    round_monetary, round_qty, roundHalfAwayZero, Rat.floor_def, cxSplit, cxBuy, txA1]

set_option maxHeartbeats 2000000 in
theorem stepT1 : processS initState bxBuy =
    ⟨[{ ticker := "T", asset_class := AssetClass.ACAO, currency := Currency.BRL,
        institution := "I", quantity := 1, avg_price := 1/100,
        total_cost := 1/100 }],
      [("T", ⟨1, 1/100, 1/100⟩)]⟩ := by
  norm_num [processS, process, ensureRow, findRow, freshPos, buyOp,
    getGlobalD, lookupG, setG, syncAvgPrice, updatePos, initState,
    round_monetary, round_qty, roundHalfAwayZero, Rat.floor_def, bxBuy, txA1]

set_option maxHeartbeats 2000000 in
theorem stepT2 : processS
    ⟨[{ ticker := "T", asset_class := AssetClass.ACAO, currency := Currency.BRL,
        institution := "I", quantity := 1, avg_price := 1/100,
        total_cost := 1/100 }],
      [("T", ⟨1, 1/100, 1/100⟩)]⟩ bxSellHalf =
    ⟨[{ ticker := "T", asset_class := AssetClass.ACAO, currency := Currency.BRL,
        institution := "I", quantity := 1/2, avg_price := 1/100,
        total_cost := 1/100 }],
      [("T", ⟨1/2, 1/100, 1/100⟩)]⟩ := by
  norm_num [processS, process, ensureRow, findRow, freshPos, sellOp,
    getGlobalD, lookupG, setG, syncAvgPrice, updatePos,
    round_monetary, round_qty, roundHalfAwayZero, Rat.floor_def,
    bxSellHalf, bxBuy, txA1]

set_option maxHeartbeats 2000000 in
theorem stepT3 : processS
    ⟨[{ ticker := "T", asset_class := AssetClass.ACAO, currency := Currency.BRL,
        institution := "I", quantity := 1/2, avg_price := 1/100,
        total_cost := 1/100 }],
      [("T", ⟨1/2, 1/100, 1/100⟩)]⟩ bxBonus =
    ⟨[{ ticker := "T", asset_class := AssetClass.ACAO, currency := Currency.BRL,
        institution := "I", quantity := 50000001/100000000, avg_price := 1/50,
        total_cost := 1/100 }],
      [("T", ⟨50000001/100000000, 1/100, 1/50⟩)]⟩ := by
  norm_num [processS, process, ensureRow, findRow, freshPos, bonusOp,
    getGlobalD, lookupG, setG, syncAvgPrice, updatePos,
    round_monetary, round_qty, roundHalfAwayZero, Rat.floor_def,
    bxBonus, bxBuy, txA1]

set_option maxHeartbeats 2000000 in
theorem stepW1 : processS initState wxBuy = ⟨[pW], [("W", ⟨100, 3000, 30⟩)]⟩ := by
  norm_num [processS, process, ensureRow, findRow, freshPos, buyOp,
    getGlobalD, lookupG, setG, syncAvgPrice, updatePos, initState,
    round_monetary, round_qty, roundHalfAwayZero, Rat.floor_def, wxBuy, txA1, pW]

/-! ## Further structural lemmas -/

theorem ensureRow_globals (s : CalcState) (tx : Transaction) :
    (ensureRow s tx).globals = s.globals := by
  unfold ensureRow
  split <;> rfl

theorem findRow_key (l : List MutablePosition) (t i : String) (p : MutablePosition)
    (h : findRow l t i = some p) : p.ticker = t ∧ p.institution = i := by
  induction l with
  | nil => exact absurd h (by simp [findRow])
  | cons q rest ih =>
      unfold findRow at h
      by_cases hc : q.ticker = t ∧ q.institution = i
      · rw [if_pos hc] at h
        cases h
        exact hc
      · rw [if_neg hc] at h
        exact ih h

theorem findRow_map (l : List MutablePosition) (t i : String)
    (f : MutablePosition → MutablePosition)
    (hf : ∀ p, (f p).ticker = p.ticker ∧ (f p).institution = p.institution) :
    findRow (l.map f) t i = Option.map f (findRow l t i) := by
  induction l with
  | nil => rfl
  | cons q rest ih =>
      show (if (f q).ticker = t ∧ (f q).institution = i then some (f q)
            else findRow (rest.map f) t i) = _
      rw [(hf q).1, (hf q).2]
      by_cases hc : q.ticker = t ∧ q.institution = i
      · rw [if_pos hc]
        show _ = Option.map f (if q.ticker = t ∧ q.institution = i then some q
          else findRow rest t i)
        rw [if_pos hc]
        rfl
      · rw [if_neg hc, ih]
        show _ = Option.map f (if q.ticker = t ∧ q.institution = i then some q
          else findRow rest t i)
        rw [if_neg hc]

theorem ensureRow_of_found (s : CalcState) (tx : Transaction) (p : MutablePosition)
    (h : findRow s.positions tx.ticker tx.institution = some p) :
    ensureRow s tx = s := by
  unfold ensureRow
  rw [h]
  rfl

/-! ## Claim theorems -/

/-- C1 counterexample: in scenario A (BUY 100 @ 30.00, BUY 50 @ 36.00, then
SELL 40 @ 35.00 on one ticker and institution) the emitted sale gain/loss is
not 200.00 as claimed. -/
theorem C1_counterexample :
    Option.map SaleResult.gain_loss (process (runAll [txA1, txA2]) txA3).2 ≠
      some 200 := by
  have h2 : runAll [txA1, txA2] =
      ⟨[{ ticker := "PETR4", asset_class := AssetClass.ACAO, currency := Currency.BRL,
          institution := "XP", quantity := 150, avg_price := 32, total_cost := 4800 }],
        [("PETR4", ⟨150, 4800, 32⟩)]⟩ := by
    show processS (processS initState txA1) txA2 = _
    rw [stepA1, stepA2]
  rw [h2, stepA3]
  norm_num

/-- C1 (amended): scenario A yields global average 32.00, total cost 4800.00
and quantity 150 after the two buys; the SELL of 40 @ 35.00 returns a
SaleResult with gain/loss 120.00 (= 1400.00 − 1280.00, per the engine's own
sale formula, not 200.00) and leaves the position with quantity 110 and total
cost 3520.00. -/
theorem C1_amended :
    globalAvg (runAll [txA1, txA2]) "PETR4" = 32
    ∧ (getGlobalD (runAll [txA1, txA2]) "PETR4").total_cost = 4800
    ∧ (getGlobalD (runAll [txA1, txA2]) "PETR4").quantity = 150
    ∧ Option.map SaleResult.gain_loss (process (runAll [txA1, txA2]) txA3).2 =
        some 120
    ∧ Option.map MutablePosition.quantity
        (findRow (runAll [txA1, txA2, txA3]).positions "PETR4" "XP") = some 110
    ∧ Option.map MutablePosition.total_cost
        (findRow (runAll [txA1, txA2, txA3]).positions "PETR4" "XP") = some 3520 := by
  have h2 : runAll [txA1, txA2] =
      ⟨[{ ticker := "PETR4", asset_class := AssetClass.ACAO, currency := Currency.BRL,
          institution := "XP", quantity := 150, avg_price := 32, total_cost := 4800 }],
        [("PETR4", ⟨150, 4800, 32⟩)]⟩ := by
    show processS (processS initState txA1) txA2 = _
    rw [stepA1, stepA2]
  have h3 : runAll [txA1, txA2, txA3] =
      ⟨[{ ticker := "PETR4", asset_class := AssetClass.ACAO, currency := Currency.BRL,
          institution := "XP", quantity := 110, avg_price := 32, total_cost := 3520 }],
        [("PETR4", ⟨110, 3520, 32⟩)]⟩ := by
    show processS (processS (processS initState txA1) txA2) txA3 = _
    rw [stepA1, stepA2]
    show (process _ txA3).1 = _
    rw [stepA3]
  rw [h2, h3, stepA3]
  norm_num [globalAvg, getGlobalD, lookupG, findRow]

/-- C2: a swing-trade stock group whose total BRL proceeds are at most
20000.00 (inclusive) produces a TaxResult with zero taxable gain, tax due,
withholding and net payable and leaves the group's ledger entry unchanged,
while a group with total proceeds 20000.01 is handed to the full
(non-exempt) taxation path with no partial exemption. -/
theorem C2_exemption (sales : List SaleResult) (led : Ledger) (m : String)
    (sr : SaleResult) (hsr : sr ∈ sales) (hk : saleKey sr = stockSwing) :
    (totalProceedsBRL (groupOf sales stockSwing) ≤ MONTHLY_EXEMPTION_LIMIT →
      (groupTax m stockSwing (groupOf sales stockSwing) (led stockSwing)).1 ∈
          (calculate_monthly_tax sales led m).1
      ∧ (groupTax m stockSwing (groupOf sales stockSwing)
          (led stockSwing)).1.taxable_gain = 0
      ∧ (groupTax m stockSwing (groupOf sales stockSwing)
          (led stockSwing)).1.tax_due = 0
      ∧ (groupTax m stockSwing (groupOf sales stockSwing)
          (led stockSwing)).1.irrf_withheld = 0
      ∧ (groupTax m stockSwing (groupOf sales stockSwing)
          (led stockSwing)).1.darf_to_pay = 0
      ∧ (calculate_monthly_tax sales led m).2 stockSwing = led stockSwing)
    ∧ (totalProceedsBRL (groupOf sales stockSwing) = 20000 + 1/100 →
      groupTax m stockSwing (groupOf sales stockSwing) (led stockSwing) =
          groupTaxCore m stockSwing (groupOf sales stockSwing) (led stockSwing)
      ∧ (groupTaxCore m stockSwing (groupOf sales stockSwing)
          (led stockSwing)).1 ∈ (calculate_monthly_tax sales led m).1
      ∧ (calculate_monthly_tax sales led m).2 stockSwing =
          (groupTaxCore m stockSwing (groupOf sales stockSwing)
            (led stockSwing)).2) := by
  have hkk : stockSwing ∈ groupKeys sales := hk ▸ saleKey_mem_groupKeys sales sr hsr
  have hmem := calc_tax_result sales led m stockSwing hkk
  have hled := calc_tax_ledger sales led m stockSwing hkk
  constructor
  · intro hle
    have hgt : groupTax m stockSwing (groupOf sales stockSwing) (led stockSwing) =
        (mkTaxResult m stockSwing.1 stockSwing.2
          (totalGainBRL (groupOf sales stockSwing)) (led stockSwing) 0
          SWING_TRADE_RATE 0 0 0 (led stockSwing),
         led stockSwing) := by
      unfold groupTax
      rw [if_pos ⟨rfl, rfl, hle⟩]
    refine ⟨?_, ?_, ?_, ?_, ?_, ?_⟩
    · unfold groupOf
      exact hmem
    · rw [hgt]
      simp [mkTaxResult, round_monetary_zero]
    · rw [hgt]
      simp [mkTaxResult, round_monetary_zero]
    · rw [hgt]
      simp [mkTaxResult, round_monetary_zero]
    · rw [hgt]
      simp [mkTaxResult, round_monetary_zero]
    · rw [hled]
      show (groupTax m stockSwing (groupOf sales stockSwing) (led stockSwing)).2 = _
      rw [hgt]
  · intro heq
    have hnot : ¬(stockSwing.2 = TradeType.SWING_TRADE ∧
        stockSwing.1 = AssetClass.ACAO ∧
        totalProceedsBRL (groupOf sales stockSwing) ≤ MONTHLY_EXEMPTION_LIMIT) := by
      intro hcond
      have := hcond.2.2
      rw [heq] at this
      norm_num [MONTHLY_EXEMPTION_LIMIT] at this
    have hgt : groupTax m stockSwing (groupOf sales stockSwing) (led stockSwing) =
        groupTaxCore m stockSwing (groupOf sales stockSwing) (led stockSwing) := by
      unfold groupTax
      rw [if_neg hnot]
    refine ⟨hgt, ?_, ?_⟩
    · rw [← hgt]
      unfold groupOf
      exact hmem
    · rw [hled]
      show (groupTax m stockSwing (groupOf sales stockSwing) (led stockSwing)).2 = _
      rw [hgt]

/-- C2 witness: the exemption theorem instantiated on a concrete single-sale
batch (proceeds 15000.00, gain 100.00) against the empty ledger. -/
theorem C2_witness :
    (totalProceedsBRL (groupOf [saleExempt] stockSwing) ≤ MONTHLY_EXEMPTION_LIMIT →
      (groupTax "2025-01" stockSwing (groupOf [saleExempt] stockSwing)
          (zeroLedger stockSwing)).1 ∈
          (calculate_monthly_tax [saleExempt] zeroLedger "2025-01").1
      ∧ (groupTax "2025-01" stockSwing (groupOf [saleExempt] stockSwing)
          (zeroLedger stockSwing)).1.taxable_gain = 0
      ∧ (groupTax "2025-01" stockSwing (groupOf [saleExempt] stockSwing)
          (zeroLedger stockSwing)).1.tax_due = 0
      ∧ (groupTax "2025-01" stockSwing (groupOf [saleExempt] stockSwing)
          (zeroLedger stockSwing)).1.irrf_withheld = 0
      ∧ (groupTax "2025-01" stockSwing (groupOf [saleExempt] stockSwing)
          (zeroLedger stockSwing)).1.darf_to_pay = 0
      ∧ (calculate_monthly_tax [saleExempt] zeroLedger "2025-01").2 stockSwing =
          zeroLedger stockSwing)
    ∧ (totalProceedsBRL (groupOf [saleExempt] stockSwing) = 20000 + 1/100 →
      groupTax "2025-01" stockSwing (groupOf [saleExempt] stockSwing)
          (zeroLedger stockSwing) =
          groupTaxCore "2025-01" stockSwing (groupOf [saleExempt] stockSwing)
            (zeroLedger stockSwing)
      ∧ (groupTaxCore "2025-01" stockSwing (groupOf [saleExempt] stockSwing)
          (zeroLedger stockSwing)).1 ∈
          (calculate_monthly_tax [saleExempt] zeroLedger "2025-01").1
      ∧ (calculate_monthly_tax [saleExempt] zeroLedger "2025-01").2 stockSwing =
          (groupTaxCore "2025-01" stockSwing (groupOf [saleExempt] stockSwing)
            (zeroLedger stockSwing)).2) :=
  C2_exemption [saleExempt] zeroLedger "2025-01" saleExempt (by simp) rfl

/-- C3 counterexample: a SELL that liquidates the whole global position zeroes
the ticker-global average price (30.00 before, 0 after), so the average is not
always unchanged across a SELL. -/
theorem C3_counterexample :
    globalAvg (runAll [dxBuy]) "D" = 30
    ∧ globalAvg (runAll [dxBuy, dxSellAll]) "D" = 0
    ∧ globalAvg (runAll [dxBuy, dxSellAll]) "D" ≠ globalAvg (runAll [dxBuy]) "D" := by
  have h1 : runAll [dxBuy] =
      ⟨[{ ticker := "D", asset_class := AssetClass.ACAO, currency := Currency.BRL,
          institution := "I", quantity := 100, avg_price := 30, total_cost := 3000 }],
        [("D", ⟨100, 3000, 30⟩)]⟩ := by
    show processS initState dxBuy = _
    rw [stepD1]
  have h2 : runAll [dxBuy, dxSellAll] =
      ⟨[{ ticker := "D", asset_class := AssetClass.ACAO, currency := Currency.BRL,
          institution := "I", quantity := 0, avg_price := 0, total_cost := 0 }],
        [("D", ⟨0, 0, 0⟩)]⟩ := by
    show processS (processS initState dxBuy) dxSellAll = _
    rw [stepD1, stepD2]
  rw [h1, h2]
  norm_num [globalAvg, getGlobalD, lookupG]

/-- C3 (amended): on any SELL, the ticker-global average price is unchanged
exactly when the clamped remaining global quantity stays positive; when the
sale empties (or over-empties) the global position the average is zeroed
together with the quantity and cost. -/
theorem C3_amended (s : CalcState) (tx : Transaction)
    (h : tx.type = TransactionType.SELL) :
    globalAvg (process s tx).1 tx.ticker =
      if 0 < round_qty ((getGlobalD s tx.ticker).quantity - tx.quantity) then
        (getGlobalD s tx.ticker).avg_price
      else 0 := by
  unfold process
  rw [h]
  show globalAvg (sellOp (ensureRow s tx) tx).1 tx.ticker = _
  unfold sellOp
  unfold globalAvg getGlobalD
  dsimp only
  rw [sync_globals]
  dsimp only
  rw [ensureRow_globals]
  rw [lookupG_setG_self]
  by_cases hq : round_qty
      (((lookupG s.globals tx.ticker).getD ⟨0, 0, 0⟩).quantity - tx.quantity) ≤ 0
  · rw [if_pos hq, if_neg (not_lt.mpr hq)]
    rfl
  · rw [if_neg hq, if_pos (lt_of_not_le hq)]
    rfl

/-- C3 witness: the amended SELL theorem applied to the concrete
full-liquidation run. -/
theorem C3_witness :
    globalAvg (process (runAll [dxBuy]) dxSellAll).1 dxSellAll.ticker =
      if 0 < round_qty ((getGlobalD (runAll [dxBuy]) dxSellAll.ticker).quantity
          - dxSellAll.quantity) then
        (getGlobalD (runAll [dxBuy]) dxSellAll.ticker).avg_price
      else 0 :=
  C3_amended (runAll [dxBuy]) dxSellAll rfl

/-- C4: after processing any transaction on top of any reachable engine state,
every per-institution row of the affected ticker holding a positive quantity
carries the ticker-global average price as its cached average (hence all such
rows agree). -/
theorem C4_invariant (txs : List Transaction) (tx : Transaction)
    (p : MutablePosition) (hp : p ∈ (runAll (txs ++ [tx])).positions)
    (ht : p.ticker = tx.ticker) (hq : 0 < p.quantity) :
    p.avg_price = globalAvg (runAll (txs ++ [tx])) tx.ticker := by
  have h := inv_runAll (txs ++ [tx]) p hp hq
  rwa [ht] at h

/-- C4 witness: the invariant read off after a single concrete BUY. -/
theorem C4_witness : pW.avg_price = globalAvg (runAll ([] ++ [wxBuy])) wxBuy.ticker :=
  C4_invariant [] wxBuy pW
    (by
      rw [show runAll ([] ++ [wxBuy]) = ⟨[pW], [("W", ⟨100, 3000, 30⟩)]⟩ from stepW1]
      exact List.mem_singleton.mpr rfl)
    rfl
    (by norm_num [pW])

/-- C5 counterexample: BUY 3 @ 33.33 then SPLIT by 7 changes the row's total
cost from 99.99 to 99.96 — the cost is not exactly invariant across the
rescale, because the propagation step rewrites it as quantity times the
re-rounded average. -/
theorem C5_counterexample :
    Option.map MutablePosition.total_cost
        (findRow (runAll [cxBuy]).positions "S" "I") = some (9999/100)
    ∧ Option.map MutablePosition.total_cost
        (findRow (runAll [cxBuy, cxSplit]).positions "S" "I") = some (9996/100)
    ∧ Option.map MutablePosition.total_cost
          (findRow (runAll [cxBuy, cxSplit]).positions "S" "I") ≠
        Option.map MutablePosition.total_cost
          (findRow (runAll [cxBuy]).positions "S" "I") := by
  have h1 : runAll [cxBuy] =
      ⟨[{ ticker := "S", asset_class := AssetClass.ACAO, currency := Currency.BRL,
          institution := "I", quantity := 3, avg_price := 3333/100,
          total_cost := 9999/100 }],
        [("S", ⟨3, 9999/100, 3333/100⟩)]⟩ := by
    show processS initState cxBuy = _
    rw [stepS1]
  have h2 : runAll [cxBuy, cxSplit] =
      ⟨[{ ticker := "S", asset_class := AssetClass.ACAO, currency := Currency.BRL,
          institution := "I", quantity := 21, avg_price := 119/25,
          total_cost := 2499/25 }],
        [("S", ⟨21, 9999/100, 119/25⟩)]⟩ := by
    show processS (processS initState cxBuy) cxSplit = _
    rw [stepS1, stepS2]
  rw [h1, h2]
  norm_num [findRow]

/-- C5 (amended): a SPLIT with positive factor on a single-institution ticker
rescales the row quantity by the factor (quantized to 8 decimals), rebuilds
the global entry from the rescaled row — total cost carried over unchanged,
average re-derived as the rounded ratio cost ÷ new quantity (so the average
scales by 1/f up to rounding) — and then rewrites the row's total cost as new
quantity × new average, which equals the old cost only up to rounding. -/
theorem C5_amended (gs : List (String × TickerGlobal)) (p : MutablePosition)
    (tx : Transaction) (htype : tx.type = TransactionType.SPLIT)
    (ht : p.ticker = tx.ticker) (hi : p.institution = tx.institution)
    (hf : 0 < tx.quantity) (hc2 : Is2Dec p.total_cost) :
    findRow (process ⟨[p], gs⟩ tx).1.positions tx.ticker tx.institution =
      some { p with
        quantity := round_qty (p.quantity * tx.quantity),
        avg_price := (if 0 < round_qty (p.quantity * tx.quantity) then
            round_monetary (p.total_cost / round_qty (p.quantity * tx.quantity))
          else 0),
        total_cost := (if 0 < round_qty (p.quantity * tx.quantity) then
            round_monetary (round_qty (p.quantity * tx.quantity) *
              round_monetary (p.total_cost / round_qty (p.quantity * tx.quantity)))
          else 0) }
    ∧ getGlobalD (process ⟨[p], gs⟩ tx).1 tx.ticker =
        ⟨round_qty (p.quantity * tx.quantity), p.total_cost,
          (if 0 < round_qty (p.quantity * tx.quantity) then
            round_monetary (p.total_cost / round_qty (p.quantity * tx.quantity))
          else 0)⟩ := by
  have hrow1 : findRow [p] tx.ticker tx.institution = some p := by
    unfold findRow
    rw [if_pos ⟨ht, hi⟩]
  have hens : ensureRow ⟨[p], gs⟩ tx = ⟨[p], gs⟩ :=
    ensureRow_of_found _ tx p hrow1
  have hstate : (process ⟨[p], gs⟩ tx).1 = splitOp ⟨[p], gs⟩ tx := by
    unfold process
    rw [htype, hens]
  have hupd : updatePos [p] tx.ticker tx.institution
      (fun q => { q with quantity := round_qty (q.quantity * tx.quantity) }) =
      [{ p with quantity := round_qty (p.quantity * tx.quantity) }] := by
    unfold updatePos
    simp [ht, hi]
  have htot : recalcTotals
      [{ p with quantity := round_qty (p.quantity * tx.quantity) }] tx.ticker =
      (round_qty (p.quantity * tx.quantity), p.total_cost) := by
    unfold recalcTotals
    simp only [List.foldl_cons, List.foldl_nil, ht, if_pos]
    rw [zero_add, zero_add, round_qty_eq_self (is8dec_round_qty _),
      round_monetary_eq_self hc2]
  rw [hstate]
  unfold splitOp
  rw [if_neg (not_le.mpr hf)]
  dsimp only
  rw [hupd]
  unfold recalcGlobal
  rw [htot]
  dsimp only
  unfold syncAvgPrice
  dsimp only
  rw [lookupG_setG_self]
  dsimp only
  constructor
  · rw [findRow_map _ _ _ _ (fun q => ⟨by split <;> rfl, by split <;> rfl⟩)]
    have hrow2 : findRow [{ p with quantity := round_qty (p.quantity * tx.quantity) }]
        tx.ticker tx.institution =
        some { p with quantity := round_qty (p.quantity * tx.quantity) } := by
      unfold findRow
      rw [if_pos ⟨ht, hi⟩]
    rw [hrow2]
    simp only [Option.map_some']
    by_cases hq2 : 0 < round_qty (p.quantity * tx.quantity)
    · simp [ht, hq2]
    · simp [ht, hq2]
  · unfold getGlobalD
    dsimp only
    rw [lookupG_setG_self]
    rfl

/-- C5 witness: the amended SPLIT theorem instantiated on the 3-share row with
cost 99.99 and factor 7. -/
theorem C5_witness :
    findRow (process ⟨[pS], []⟩ cxSplit).1.positions cxSplit.ticker cxSplit.institution =
      some { pS with
        quantity := round_qty (pS.quantity * cxSplit.quantity),
        avg_price := (if 0 < round_qty (pS.quantity * cxSplit.quantity) then
            round_monetary (pS.total_cost / round_qty (pS.quantity * cxSplit.quantity))
          else 0),
        total_cost := (if 0 < round_qty (pS.quantity * cxSplit.quantity) then
            round_monetary (round_qty (pS.quantity * cxSplit.quantity) *
              round_monetary (pS.total_cost / round_qty (pS.quantity * cxSplit.quantity)))
          else 0) }
    ∧ getGlobalD (process ⟨[pS], []⟩ cxSplit).1 cxSplit.ticker =
        ⟨round_qty (pS.quantity * cxSplit.quantity), pS.total_cost,
          (if 0 < round_qty (pS.quantity * cxSplit.quantity) then
            round_monetary (pS.total_cost / round_qty (pS.quantity * cxSplit.quantity))
          else 0)⟩ :=
  C5_amended [] pS cxSplit rfl rfl rfl
    (by norm_num [cxSplit, cxBuy, txA1])
    ⟨9999, by norm_num [pS]⟩

/-- C6 counterexample: a reachable state with positive global quantity 0.5 and
average 0.01 where a BONUS of one quantity quantum makes the stored average
rise from 0.01 to 0.02 — the average does not strictly decrease. -/
theorem C6_counterexample :
    0 < (getGlobalD (runAll [bxBuy, bxSellHalf]) "T").quantity
    ∧ globalAvg (runAll [bxBuy, bxSellHalf]) "T" = 1/100
    ∧ globalAvg (runAll [bxBuy, bxSellHalf, bxBonus]) "T" = 1/50
    ∧ ¬ globalAvg (runAll [bxBuy, bxSellHalf, bxBonus]) "T" <
        globalAvg (runAll [bxBuy, bxSellHalf]) "T" := by
  have h2 : runAll [bxBuy, bxSellHalf] =
      ⟨[{ ticker := "T", asset_class := AssetClass.ACAO, currency := Currency.BRL,
          institution := "I", quantity := 1/2, avg_price := 1/100,
          total_cost := 1/100 }],
        [("T", ⟨1/2, 1/100, 1/100⟩)]⟩ := by
    show processS (processS initState bxBuy) bxSellHalf = _
    rw [stepT1, stepT2]
  have h3 : runAll [bxBuy, bxSellHalf, bxBonus] =
      ⟨[{ ticker := "T", asset_class := AssetClass.ACAO, currency := Currency.BRL,
          institution := "I", quantity := 50000001/100000000, avg_price := 1/50,
          total_cost := 1/100 }],
        [("T", ⟨50000001/100000000, 1/100, 1/50⟩)]⟩ := by
    show processS (processS (processS initState bxBuy) bxSellHalf) bxBonus = _
    rw [stepT1, stepT2, stepT3]
  rw [h2, h3]
  norm_num [globalAvg, getGlobalD, lookupG]

/-- C6 (amended): a BONUS with a positive 8-decimal quantity strictly
increases the row quantity by exactly the bonus amount and leaves the global
total cost unchanged; the global average is recomputed as the rounded ratio of
the unchanged cost to the increased quantity, whose unrounded value strictly
decreases whenever cost and prior quantity are positive — but after rounding
the stored average may stay equal or even increase. -/
theorem C6_amended (s : CalcState) (tx : Transaction) (p : MutablePosition)
    (htype : tx.type = TransactionType.BONUS)
    (hrow : findRow s.positions tx.ticker tx.institution = some p)
    (hb : 0 < tx.quantity) (hb8 : Is8Dec tx.quantity)
    (hp8 : Is8Dec p.quantity)
    (hg8 : Is8Dec (getGlobalD s tx.ticker).quantity) :
    Option.map MutablePosition.quantity
        (findRow (process s tx).1.positions tx.ticker tx.institution) =
      some (p.quantity + tx.quantity)
    ∧ p.quantity < p.quantity + tx.quantity
    ∧ (getGlobalD (process s tx).1 tx.ticker).total_cost =
        (getGlobalD s tx.ticker).total_cost
    ∧ (getGlobalD (process s tx).1 tx.ticker).avg_price =
        (if 0 < (getGlobalD s tx.ticker).quantity + tx.quantity then
          round_monetary ((getGlobalD s tx.ticker).total_cost /
            ((getGlobalD s tx.ticker).quantity + tx.quantity))
        else 0)
    ∧ (0 < (getGlobalD s tx.ticker).quantity →
        0 < (getGlobalD s tx.ticker).total_cost →
        (getGlobalD s tx.ticker).total_cost /
            ((getGlobalD s tx.ticker).quantity + tx.quantity) <
          (getGlobalD s tx.ticker).total_cost /
            (getGlobalD s tx.ticker).quantity) := by
  have hens : ensureRow s tx = s := ensureRow_of_found s tx p hrow
  have hkey := findRow_key _ _ _ _ hrow
  have hgq : round_qty ((getGlobalD s tx.ticker).quantity + tx.quantity) =
      (getGlobalD s tx.ticker).quantity + tx.quantity :=
    round_qty_eq_self (is8dec_add hg8 hb8)
  have hstate : (process s tx).1 = bonusOp s tx := by
    unfold process
    rw [htype, hens]
  rw [hstate]
  unfold bonusOp
  constructor
  · -- row quantity
    unfold syncAvgPrice
    dsimp only
    rw [lookupG_setG_self]
    dsimp only
    rw [findRow_map _ _ _ _ (fun q => ⟨by split <;> rfl, by split <;> rfl⟩)]
    unfold updatePos
    rw [findRow_map _ _ _ _ (fun q => ⟨by split <;> rfl, by split <;> rfl⟩)]
    rw [hrow]
    simp only [Option.map_some']
    simp [hkey.1, hkey.2, round_qty_eq_self (is8dec_add hp8 hb8)]
  constructor
  · linarith
  constructor
  · unfold getGlobalD
    rw [sync_globals]
    dsimp only
    rw [lookupG_setG_self]
    rfl
  constructor
  · unfold getGlobalD
    rw [sync_globals]
    dsimp only
    rw [lookupG_setG_self]
    show (if 0 < round_qty ((getGlobalD s tx.ticker).quantity + tx.quantity) then
        round_monetary ((getGlobalD s tx.ticker).total_cost /
          round_qty ((getGlobalD s tx.ticker).quantity + tx.quantity))
      else 0) = _
    rw [hgq]
    rfl
  · intro hq hc
    have hlt : (getGlobalD s tx.ticker).quantity <
        (getGlobalD s tx.ticker).quantity + tx.quantity := by linarith
    exact div_lt_div_of_pos_left hc hq hlt

/-- C6 witness: the amended BONUS theorem instantiated on the half-share state
with a one-quantum bonus. -/
theorem C6_witness :
    Option.map MutablePosition.quantity
        (findRow (process sT bxBonus).1.positions bxBonus.ticker bxBonus.institution) =
      some (pT.quantity + bxBonus.quantity)
    ∧ pT.quantity < pT.quantity + bxBonus.quantity
    ∧ (getGlobalD (process sT bxBonus).1 bxBonus.ticker).total_cost =
        (getGlobalD sT bxBonus.ticker).total_cost
    ∧ (getGlobalD (process sT bxBonus).1 bxBonus.ticker).avg_price =
        (if 0 < (getGlobalD sT bxBonus.ticker).quantity + bxBonus.quantity then
          round_monetary ((getGlobalD sT bxBonus.ticker).total_cost /
            ((getGlobalD sT bxBonus.ticker).quantity + bxBonus.quantity))
        else 0)
    ∧ (0 < (getGlobalD sT bxBonus.ticker).quantity →
        0 < (getGlobalD sT bxBonus.ticker).total_cost →
        (getGlobalD sT bxBonus.ticker).total_cost /
            ((getGlobalD sT bxBonus.ticker).quantity + bxBonus.quantity) <
          (getGlobalD sT bxBonus.ticker).total_cost /
            (getGlobalD sT bxBonus.ticker).quantity) :=
  C6_amended sT bxBonus pT rfl
    (by norm_num [sT, pT, findRow, bxBonus, bxBuy, txA1])
    (by norm_num [bxBonus, bxBuy, txA1])
    ⟨1, by norm_num [bxBonus, bxBuy, txA1]⟩
    ⟨50000000, by norm_num [pT]⟩
    ⟨50000000, by norm_num [sT, getGlobalD, lookupG, bxBonus, bxBuy, txA1]⟩

/-- C7 counterexample: an exempt swing-trade stock group (proceeds 15000.00,
gain 100.00) with carried loss 300.00 leaves the ledger at 300.00 instead of
300.00 − 100.00, so the loss-offset equation does not hold for every group
with gain below the carried loss. -/
theorem C7_counterexample :
    totalGainBRL (groupOf [saleExempt] stockSwing) = 100
    ∧ led300 stockSwing = 300
    ∧ totalGainBRL (groupOf [saleExempt] stockSwing) < led300 stockSwing
    ∧ (calculate_monthly_tax [saleExempt] led300 "2025-03").2 stockSwing = 300
    ∧ (300 : ℚ) ≠ 300 - 100 := by
  have hkk : stockSwing ∈ groupKeys [saleExempt] :=
    saleKey_mem_groupKeys [saleExempt] saleExempt (by simp)
  have hled := calc_tax_ledger [saleExempt] led300 "2025-03" stockSwing hkk
  have hG : totalGainBRL (groupOf [saleExempt] stockSwing) = 100 := by
    norm_num [groupOf, totalGainBRL, gain_loss_brl, saleExempt, mkSale,
      List.filter, saleKey, stockSwing, round_monetary, roundHalfAwayZero,
      Rat.floor_def]
  have hP : totalProceedsBRL (groupOf [saleExempt] stockSwing) ≤
      MONTHLY_EXEMPTION_LIMIT := by
    norm_num [groupOf, totalProceedsBRL, proceeds_brl, saleExempt, mkSale,
      List.filter, saleKey, stockSwing, MONTHLY_EXEMPTION_LIMIT,
      round_monetary, roundHalfAwayZero, Rat.floor_def]
  have hgt : groupTax "2025-03" stockSwing (groupOf [saleExempt] stockSwing)
      (led300 stockSwing) =
      (mkTaxResult "2025-03" stockSwing.1 stockSwing.2
        (totalGainBRL (groupOf [saleExempt] stockSwing)) (led300 stockSwing) 0
        SWING_TRADE_RATE 0 0 0 (led300 stockSwing),
       led300 stockSwing) := by
    unfold groupTax
    rw [if_pos ⟨rfl, rfl, hP⟩]
  have h300 : led300 stockSwing = 300 := by
    norm_num [led300, updateLedger, zeroLedger, stockSwing]
  refine ⟨hG, h300, by rw [hG, h300]; norm_num, ?_, by norm_num⟩
  rw [hled]
  show (groupTax "2025-03" stockSwing (groupOf [saleExempt] stockSwing)
      (led300 stockSwing)).2 = 300
  rw [hgt, h300]

/-- C7 (amended): for every group that does not qualify for the monthly
exemption, with a well-formed (2-decimal) ledger entry, a month whose total
gain is below the loss carried in produces taxable gain 0 and a ledger entry
of loss-carried-in − gain, which is never negative. -/
theorem C7_amended (sales : List SaleResult) (led : Ledger) (m : String)
    (k : TaxKey) (sr : SaleResult) (hsr : sr ∈ sales) (hk : saleKey sr = k)
    (hnx : ¬(k.2 = TradeType.SWING_TRADE ∧ k.1 = AssetClass.ACAO ∧
      totalProceedsBRL (groupOf sales k) ≤ MONTHLY_EXEMPTION_LIMIT))
    (h2 : Is2Dec (led k))
    (hlt : totalGainBRL (groupOf sales k) < led k) :
    (calculate_monthly_tax sales led m).2 k =
        led k - totalGainBRL (groupOf sales k)
    ∧ 0 ≤ led k - totalGainBRL (groupOf sales k)
    ∧ (groupTax m k (groupOf sales k) (led k)).1 ∈
        (calculate_monthly_tax sales led m).1
    ∧ (groupTax m k (groupOf sales k) (led k)).1.taxable_gain = 0 := by
  have hkk : k ∈ groupKeys sales := hk ▸ saleKey_mem_groupKeys sales sr hsr
  have hmem := calc_tax_result sales led m k hkk
  have hled := calc_tax_ledger sales led m k hkk
  have hG2 : Is2Dec (totalGainBRL (groupOf sales k)) := is2dec_totalGain _
  have hgt : groupTax m k (groupOf sales k) (led k) =
      groupTaxCore m k (groupOf sales k) (led k) := by
    unfold groupTax
    rw [if_neg hnx]
  have hcore : groupTaxCore m k (groupOf sales k) (led k) =
      (mkTaxResult m k.1 k.2 (totalGainBRL (groupOf sales k)) (led k) 0
          (rate_of k.2) 0 0 0 (led k - totalGainBRL (groupOf sales k)),
        led k - totalGainBRL (groupOf sales k)) := by
    unfold groupTaxCore
    by_cases hneg : totalGainBRL (groupOf sales k) < 0
    · rw [if_pos hneg]
      have habs : round_monetary (led k + |totalGainBRL (groupOf sales k)|) =
          led k - totalGainBRL (groupOf sales k) := by
        rw [abs_of_neg hneg,
          round_monetary_eq_self (is2dec_add h2 (is2dec_neg hG2))]
        ring
      rw [habs]
    · rw [if_neg hneg]
      have htax : round_monetary (totalGainBRL (groupOf sales k) - led k) =
          totalGainBRL (groupOf sales k) - led k :=
        round_monetary_eq_self (is2dec_sub hG2 h2)
      rw [htax]
      rw [if_pos (by linarith : totalGainBRL (groupOf sales k) - led k < 0)]
      have habs : round_monetary |totalGainBRL (groupOf sales k) - led k| =
          led k - totalGainBRL (groupOf sales k) := by
        rw [abs_of_neg (by linarith : totalGainBRL (groupOf sales k) - led k < 0),
          round_monetary_eq_self (is2dec_neg (is2dec_sub hG2 h2))]
        ring
      rw [habs]
  refine ⟨?_, by linarith, ?_, ?_⟩
  · rw [hled]
    show (groupTax m k (groupOf sales k) (led k)).2 = _
    rw [hgt, hcore]
  · unfold groupOf
    exact hmem
  · rw [hgt, hcore]
    simp [mkTaxResult, round_monetary_zero]

/-- C7 witness: the amended carry-forward theorem instantiated on a concrete
FII group with gain −50.00 against a carried loss of 100.00. -/
theorem C7_witness :
    (calculate_monthly_tax [saleFIIloss] ledFII "2025-05").2
        (AssetClass.FII, TradeType.SWING_TRADE) =
      ledFII (AssetClass.FII, TradeType.SWING_TRADE) -
        totalGainBRL (groupOf [saleFIIloss] (AssetClass.FII, TradeType.SWING_TRADE))
    ∧ 0 ≤ ledFII (AssetClass.FII, TradeType.SWING_TRADE) -
        totalGainBRL (groupOf [saleFIIloss] (AssetClass.FII, TradeType.SWING_TRADE))
    ∧ (groupTax "2025-05" (AssetClass.FII, TradeType.SWING_TRADE)
        (groupOf [saleFIIloss] (AssetClass.FII, TradeType.SWING_TRADE))
        (ledFII (AssetClass.FII, TradeType.SWING_TRADE))).1 ∈
        (calculate_monthly_tax [saleFIIloss] ledFII "2025-05").1
    ∧ (groupTax "2025-05" (AssetClass.FII, TradeType.SWING_TRADE)
        (groupOf [saleFIIloss] (AssetClass.FII, TradeType.SWING_TRADE))
        (ledFII (AssetClass.FII, TradeType.SWING_TRADE))).1.taxable_gain = 0 :=
  C7_amended [saleFIIloss] ledFII "2025-05" (AssetClass.FII, TradeType.SWING_TRADE)
    saleFIIloss (by simp) rfl
    (by simp [saleFIIloss, mkSale])
    ⟨10000, by norm_num [ledFII, updateLedger, zeroLedger]⟩
    (by norm_num [groupOf, totalGainBRL, gain_loss_brl, saleFIIloss, mkSale,
      List.filter, saleKey, ledFII, updateLedger, zeroLedger,
      round_monetary, roundHalfAwayZero, Rat.floor_def])

/-- C8 counterexample: a swing-trade stock group with carried loss 300.00 and
gain 1000.00 but proceeds of only 15000.00 is exempt and produces taxable
gain 0, not 700.00 — the scenario does not hold regardless of proceeds. -/
theorem C8_counterexample :
    led300 stockSwing = 300
    ∧ totalGainBRL (groupOf [saleSmallGain] stockSwing) = 1000
    ∧ (calculate_monthly_tax [saleSmallGain] led300 "2025-02").1.map
        TaxResult.taxable_gain = [0]
    ∧ ((0 : ℚ) ≠ 700) := by
  have hP : totalProceedsBRL (groupOf [saleSmallGain] stockSwing) ≤
      MONTHLY_EXEMPTION_LIMIT := by
    norm_num [groupOf, totalProceedsBRL, proceeds_brl, saleSmallGain, mkSale,
      List.filter, saleKey, stockSwing, MONTHLY_EXEMPTION_LIMIT,
      round_monetary, roundHalfAwayZero, Rat.floor_def]
  have hlist : (calculate_monthly_tax [saleSmallGain] led300 "2025-02").1 =
      [(groupTax "2025-02" stockSwing (groupOf [saleSmallGain] stockSwing)
        (led300 stockSwing)).1] := by
    norm_num [calculate_monthly_tax, groupKeys, insertKey, taxFold, saleKey,
      saleSmallGain, mkSale, stockSwing, groupOf]
  have hgt : groupTax "2025-02" stockSwing (groupOf [saleSmallGain] stockSwing)
      (led300 stockSwing) =
      (mkTaxResult "2025-02" stockSwing.1 stockSwing.2
        (totalGainBRL (groupOf [saleSmallGain] stockSwing)) (led300 stockSwing) 0
        SWING_TRADE_RATE 0 0 0 (led300 stockSwing),
       led300 stockSwing) := by
    unfold groupTax
    rw [if_pos ⟨rfl, rfl, hP⟩]
  refine ⟨by norm_num [led300, updateLedger, zeroLedger, stockSwing], ?_, ?_, by norm_num⟩
  · norm_num [groupOf, totalGainBRL, gain_loss_brl, saleSmallGain, mkSale,
      List.filter, saleKey, stockSwing, round_monetary, roundHalfAwayZero,
      Rat.floor_def]
  · rw [hlist, hgt]
    simp [mkTaxResult, round_monetary_zero]

/-- C8 (amended): a swing-trade stock group with prior carried loss 300.00 and
current gain 1000.00 whose total proceeds exceed the exemption limit yields
taxable gain 700.00, tax due 105.00 and a zeroed loss ledger entry. -/
theorem C8_amended (sales : List SaleResult) (led : Ledger) (m : String)
    (sr : SaleResult) (hsr : sr ∈ sales) (hk : saleKey sr = stockSwing)
    (hloss : led stockSwing = 300)
    (hgain : totalGainBRL (groupOf sales stockSwing) = 1000)
    (hpro : MONTHLY_EXEMPTION_LIMIT < totalProceedsBRL (groupOf sales stockSwing)) :
    (groupTax m stockSwing (groupOf sales stockSwing) (led stockSwing)).1 ∈
        (calculate_monthly_tax sales led m).1
    ∧ (groupTax m stockSwing (groupOf sales stockSwing)
        (led stockSwing)).1.taxable_gain = 700
    ∧ (groupTax m stockSwing (groupOf sales stockSwing)
        (led stockSwing)).1.tax_due = 105
    ∧ (calculate_monthly_tax sales led m).2 stockSwing = 0 := by
  have hkk : stockSwing ∈ groupKeys sales := hk ▸ saleKey_mem_groupKeys sales sr hsr
  have hmem := calc_tax_result sales led m stockSwing hkk
  have hled := calc_tax_ledger sales led m stockSwing hkk
  have hnx : ¬(stockSwing.2 = TradeType.SWING_TRADE ∧
      stockSwing.1 = AssetClass.ACAO ∧
      totalProceedsBRL (groupOf sales stockSwing) ≤ MONTHLY_EXEMPTION_LIMIT) :=
    fun hcond => absurd hcond.2.2 (not_le.mpr hpro)
  have hgt : groupTax m stockSwing (groupOf sales stockSwing) (led stockSwing) =
      groupTaxCore m stockSwing (groupOf sales stockSwing) (led stockSwing) := by
    unfold groupTax
    rw [if_neg hnx]
  have h700 : round_monetary ((1000 : ℚ) - 300) = 700 := by
    norm_num [round_monetary, roundHalfAwayZero, Rat.floor_def]
  have hrate : rate_of stockSwing.2 = SWING_TRADE_RATE := by
    unfold rate_of stockSwing
    exact if_neg (fun h => TradeType.noConfusion h)
  have h105 : round_monetary (700 * rate_of stockSwing.2) = 105 := by
    rw [hrate]
    norm_num [SWING_TRADE_RATE, round_monetary, roundHalfAwayZero, Rat.floor_def]
  have h700b : round_monetary (700 : ℚ) = 700 :=
    round_monetary_eq_self ⟨70000, by norm_num⟩
  have h105b : round_monetary (105 : ℚ) = 105 :=
    round_monetary_eq_self ⟨10500, by norm_num⟩
  have hcore : groupTaxCore m stockSwing (groupOf sales stockSwing)
      (led stockSwing) =
      (mkTaxResult m stockSwing.1 stockSwing.2 1000 300 700
        (rate_of stockSwing.2) 105
        (compute_irrf stockSwing.2 (totalProceedsBRL (groupOf sales stockSwing))
          1000)
        (round_monetary (max (105 - compute_irrf stockSwing.2
          (totalProceedsBRL (groupOf sales stockSwing)) 1000) 0))
        0,
       0) := by
    unfold groupTaxCore
    rw [hgain, hloss]
    rw [if_neg (by norm_num : ¬ (1000 : ℚ) < 0)]
    rw [h700]
    rw [if_neg (by norm_num : ¬ (700 : ℚ) < 0)]
    dsimp only
    rw [h105]
  refine ⟨?_, ?_, ?_, ?_⟩
  · unfold groupOf
    exact hmem
  · rw [hgt, hcore]
    simp [mkTaxResult, h700b]
  · rw [hgt, hcore]
    simp [mkTaxResult, h105b]
  · rw [hled]
    show (groupTax m stockSwing (groupOf sales stockSwing) (led stockSwing)).2 = 0
    rw [hgt, hcore]

/-- C8 witness: the amended scenario-C theorem instantiated on a concrete sale
with proceeds 25000.00. -/
theorem C8_witness :
    (groupTax "2025-02" stockSwing (groupOf [saleBigGain] stockSwing)
        (led300 stockSwing)).1 ∈
        (calculate_monthly_tax [saleBigGain] led300 "2025-02").1
    ∧ (groupTax "2025-02" stockSwing (groupOf [saleBigGain] stockSwing)
        (led300 stockSwing)).1.taxable_gain = 700
    ∧ (groupTax "2025-02" stockSwing (groupOf [saleBigGain] stockSwing)
        (led300 stockSwing)).1.tax_due = 105
    ∧ (calculate_monthly_tax [saleBigGain] led300 "2025-02").2 stockSwing = 0 :=
  C8_amended [saleBigGain] led300 "2025-02" saleBigGain (by simp) rfl
    (by norm_num [led300, updateLedger, zeroLedger, stockSwing])
    (by norm_num [groupOf, totalGainBRL, gain_loss_brl, saleBigGain, mkSale,
      List.filter, saleKey, stockSwing, round_monetary, roundHalfAwayZero,
      Rat.floor_def])
    (by norm_num [groupOf, totalProceedsBRL, proceeds_brl, saleBigGain, mkSale,
      List.filter, saleKey, stockSwing, MONTHLY_EXEMPTION_LIMIT,
      round_monetary, roundHalfAwayZero, Rat.floor_def])

/-- C9 counterexample: a DIVIDEND on a never-seen (ticker, institution) pair
changes the output of get_positions — a fresh zero-quantity row is inserted by
the dispatch prologue, so the reported row set is not identical. -/
theorem C9_counterexample :
    get_positions (process initState txDiv).1 ≠ get_positions initState := by
  norm_num [process, ensureRow, findRow, initState, get_positions, freshPos,
    toPosition, txDiv, txA1, round_monetary, roundHalfAwayZero]

/-- C9 (amended): DIVIDEND and JCP return no sale result and change no row's
quantity, average or cost: the state is exactly the input state after the
row-creation prologue, every previously existing row is still present
unchanged, and the open-position snapshot is identical — but a never-seen
(ticker, institution) pair acquires a zero-quantity row that get_positions
reports. -/
theorem C9_amended (s : CalcState) (tx : Transaction)
    (h : tx.type = TransactionType.DIVIDEND ∨ tx.type = TransactionType.JCP) :
    (process s tx).2 = none
    ∧ (process s tx).1 = ensureRow s tx
    ∧ get_open_positions (process s tx).1 = get_open_positions s
    ∧ ∀ p ∈ s.positions, p ∈ (process s tx).1.positions := by
  have hstate : (process s tx).1 = ensureRow s tx ∧ (process s tx).2 = none := by
    rcases h with h | h <;> (unfold process; rw [h]; exact ⟨rfl, rfl⟩)
  have hopen : get_open_positions (ensureRow s tx) = get_open_positions s := by
    unfold ensureRow
    split
    · rfl
    · unfold get_open_positions get_positions
      simp [List.filter_append, toPosition, freshPos, round_monetary_zero]
  have hmem : ∀ p ∈ s.positions, p ∈ (ensureRow s tx).positions := by
    unfold ensureRow
    split
    · intro p hp; exact hp
    · intro p hp; exact List.mem_append_left _ hp
  refine ⟨hstate.2, hstate.1, ?_, ?_⟩
  · rw [hstate.1]; exact hopen
  · rw [hstate.1]; exact hmem

/-- C9 witness: the amended DIVIDEND/JCP theorem instantiated on a fresh
engine and a dividend for an unseen pair. -/
theorem C9_witness :
    (process initState txDiv).2 = none
    ∧ (process initState txDiv).1 = ensureRow initState txDiv
    ∧ get_open_positions (process initState txDiv).1 = get_open_positions initState
    ∧ ∀ p ∈ initState.positions, p ∈ (process initState txDiv).1.positions :=
  C9_amended initState txDiv (Or.inl rfl)

/-- C10: a swing-trade stock group that qualifies for the monthly exemption
while its total gain for the month is negative leaves the group's
accumulated-loss ledger entry unchanged — the net loss is forfeited, not
carried forward — because the exemption branch precedes the net-loss
branch. -/
theorem C10_exempt_loss_forfeited (sales : List SaleResult) (led : Ledger)
    (m : String) (sr : SaleResult) (hsr : sr ∈ sales) (hk : saleKey sr = stockSwing)
    (hle : totalProceedsBRL (groupOf sales stockSwing) ≤ MONTHLY_EXEMPTION_LIMIT)
    (hneg : totalGainBRL (groupOf sales stockSwing) < 0) :
    (calculate_monthly_tax sales led m).2 stockSwing = led stockSwing
    ∧ (groupTax m stockSwing (groupOf sales stockSwing) (led stockSwing)).1 ∈
        (calculate_monthly_tax sales led m).1
    ∧ (groupTax m stockSwing (groupOf sales stockSwing)
        (led stockSwing)).1.taxable_gain = 0
    ∧ (groupTax m stockSwing (groupOf sales stockSwing)
        (led stockSwing)).1.tax_due = 0 := by
  have hkk : stockSwing ∈ groupKeys sales := hk ▸ saleKey_mem_groupKeys sales sr hsr
  have hmem := calc_tax_result sales led m stockSwing hkk
  have hled := calc_tax_ledger sales led m stockSwing hkk
  have hgt : groupTax m stockSwing (groupOf sales stockSwing) (led stockSwing) =
      (mkTaxResult m stockSwing.1 stockSwing.2
        (totalGainBRL (groupOf sales stockSwing)) (led stockSwing) 0
        SWING_TRADE_RATE 0 0 0 (led stockSwing),
       led stockSwing) := by
    unfold groupTax
    rw [if_pos ⟨rfl, rfl, hle⟩]
  refine ⟨?_, ?_, ?_, ?_⟩
  · rw [hled]
    show (groupTax m stockSwing (groupOf sales stockSwing) (led stockSwing)).2 = _
    rw [hgt]
  · unfold groupOf
    exact hmem
  · rw [hgt]
    simp [mkTaxResult, round_monetary_zero]
  · rw [hgt]
    simp [mkTaxResult, round_monetary_zero]

/-- C10 witness: the exemption-forfeits-loss theorem instantiated on a
concrete exempt group with gain −200.00 and carried loss 50.00. -/
theorem C10_witness :
    (calculate_monthly_tax [saleExemptLoss] led50 "2025-04").2 stockSwing =
        led50 stockSwing
    ∧ (groupTax "2025-04" stockSwing (groupOf [saleExemptLoss] stockSwing)
        (led50 stockSwing)).1 ∈
        (calculate_monthly_tax [saleExemptLoss] led50 "2025-04").1
    ∧ (groupTax "2025-04" stockSwing (groupOf [saleExemptLoss] stockSwing)
        (led50 stockSwing)).1.taxable_gain = 0
    ∧ (groupTax "2025-04" stockSwing (groupOf [saleExemptLoss] stockSwing)
        (led50 stockSwing)).1.tax_due = 0 :=
  C10_exempt_loss_forfeited [saleExemptLoss] led50 "2025-04" saleExemptLoss
    (by simp) rfl
    (by norm_num [groupOf, totalProceedsBRL, proceeds_brl, saleExemptLoss, mkSale,
      List.filter, saleKey, stockSwing, MONTHLY_EXEMPTION_LIMIT,
      round_monetary, roundHalfAwayZero, Rat.floor_def])
    (by norm_num [groupOf, totalGainBRL, gain_loss_brl, saleExemptLoss, mkSale,
      List.filter, saleKey, stockSwing,
      round_monetary, roundHalfAwayZero, Rat.floor_def])

end Portfolio
